import Mathlib

/-!
Shallow embedding of the TTS-option core of the `ttsbot` repository:
the option schemas and builders (`src/tts/voice_text.rs`, `src/tts/voice_vox.rs`),
the token-list option builder (`src/option_builder.rs`) and the cached option
store (`src/option_storage.rs`).

Machine integers (`u8`, `u16`, `u64`) are modelled as `Nat`; every operation the
claims touch stays far below the wrap-around boundary, and the Rust integer
parsers reject out-of-range inputs before any overflow can occur, which the
embedding mirrors with explicit bound checks.  Rust `f64` values reaching the
VoiceVox options are modelled exactly: a parsed decimal literal is kept as a
rational number (`Rat`) and the non-finite values keep their own constructors.
This abstracts IEEE-754 rounding; no claim settled below depends on two
distinct literals denoting the same double.
-/

/-! ## Integer parsing (Rust `str::parse::<u8>` / `::<u16>`) -/

/-- Error kinds of Rust `ParseIntError` that can arise for unsigned targets. -/
inductive IntErrorKind where
  | empty
  | invalidDigit
  | posOverflow
deriving DecidableEq, Repr

/-- Digit-accumulation loop of Rust `from_str_radix` (radix 10, unsigned):
multiply-add per digit with an overflow check against the type maximum. -/
def parseDigitsAcc (maxVal : Nat) : Nat → List Char → Except IntErrorKind Nat
  | acc, [] => .ok acc
  | acc, c :: cs =>
    if c.isDigit then
      let acc2 := acc * 10 + (c.toNat - 48)
      if acc2 > maxVal then .error .posOverflow else parseDigitsAcc maxVal acc2 cs
    else .error .invalidDigit

/-- Rust `str::parse` for an unsigned integer type with maximum `maxVal`:
empty input is `Empty`; a lone sign or a minus sign on an unsigned type is
`InvalidDigit`; otherwise the digit loop runs. -/
def parseUnsigned (maxVal : Nat) (s : String) : Except IntErrorKind Nat :=
  match s.data with
  | [] => .error .empty
  | c :: rest =>
    if c = '+' then
      match rest with
      | [] => .error .invalidDigit
      | _ => parseDigitsAcc maxVal 0 rest
    else if c = '-' then .error .invalidDigit
    else parseDigitsAcc maxVal 0 (c :: rest)

/-! ## Float parsing (Rust `str::parse::<f64>`) -/

/-- Model of a Rust `f64` as it is produced by `str::parse`: finite values are
kept as exact rationals (see the header note), non-finite ones explicitly. -/
inductive F64 where
  | finite (val : Rat)
  | posInf
  | negInf
  | nan
deriving DecidableEq, Repr

/-- Numeric value of a digit list, most significant first. -/
def digitsToNat (ds : List Char) : Nat :=
  ds.foldl (fun acc c => acc * 10 + (c.toNat - 48)) 0

/-- Exponent part of the Rust float grammar, after the `e`/`E`:
an optional sign followed by at least one digit, consuming the whole rest. -/
def parseExpPart (cs : List Char) : Option Int :=
  let signAndDigits : Bool × List Char :=
    match cs with
    | '+' :: r => (false, r)
    | '-' :: r => (true, r)
    | r => (false, r)
  match signAndDigits with
  | (negE, ds) =>
    if ds = [] then none
    else if ds.all Char.isDigit then
      some (if negE then -(digitsToNat ds : Int) else (digitsToNat ds : Int))
    else none

/-- Number part of the Rust float grammar:
`Digits`, `Digits . Digits?` or `. Digits`, each with an optional exponent. -/
def parseDecimal (cs : List Char) : Option Rat :=
  match cs.span Char.isDigit with
  | (ip, rest) =>
    match rest with
    | '.' :: rest2 =>
      match rest2.span Char.isDigit with
      | (fp, rest3) =>
        if ip = [] ∧ fp = [] then none
        else
          let scaled : Rat := (digitsToNat (ip ++ fp) : Rat) / (10 : Rat) ^ fp.length
          match rest3 with
          | [] => some scaled
          | 'e' :: r => (parseExpPart r).map (fun e => scaled * (10 : Rat) ^ e)
          | 'E' :: r => (parseExpPart r).map (fun e => scaled * (10 : Rat) ^ e)
          | _ => none
    | [] => if ip = [] then none else some (digitsToNat ip : Rat)
    | 'e' :: r =>
      if ip = [] then none
      else (parseExpPart r).map (fun e => (digitsToNat ip : Rat) * (10 : Rat) ^ e)
    | 'E' :: r =>
      if ip = [] then none
      else (parseExpPart r).map (fun e => (digitsToNat ip : Rat) * (10 : Rat) ^ e)
    | _ => none

/-- Rust `str::parse::<f64>`: an optional sign, then case-insensitively
`inf`/`infinity`/`nan`, or a decimal number per `parseDecimal`. -/
def parse_f64 (s : String) : Option F64 :=
  let signAndBody : Bool × List Char :=
    match s.data with
    | '+' :: r => (false, r)
    | '-' :: r => (true, r)
    | r => (false, r)
  match signAndBody with
  | (neg, body) =>
    let lower := body.map Char.toLower
    if lower = "inf".data ∨ lower = "infinity".data then
      some (if neg then .negInf else .posInf)
    else if lower = "nan".data then some .nan
    else (parseDecimal body).map (fun q => .finite (if neg then -q else q))

/-! ## Token splitting (Rust `str::split` at the character `=`) -/

/-- Rust `split('=')` on the character list of a token: always returns at least
one (possibly empty) segment. -/
def splitEq : List Char → List (List Char)
  | [] => [[]]
  | c :: rest =>
    if c = '=' then [] :: splitEq rest
    else
      match splitEq rest with
      | [] => [[c]]
      | seg :: segs => (c :: seg) :: segs

/-- First two items of the split iterator, as the option builder consumes them:
the key (always present) and the value (present iff the token contains `=`). -/
def parseKV (t : String) : String × Option String :=
  match splitEq t.data with
  | [] => (String.mk [], none)
  | k :: rest => (String.mk k, rest.head?.map String.mk)

/-! ## VoiceText enums (`src/tts/voice_text.rs`)

Each strum-derived enum gets `toText` (its `Display`, snake_case serialization)
and `fromText` (its `FromStr`, an exact, case-sensitive match that fails on any
other string), plus `serdeName` where the serde wire name (the unrenamed Rust
variant identifier) differs from the strum form. -/

inductive VoiceTextSpeaker where
  | Show
  | Haruka
  | Hikari
  | Takeru
  | Santa
  | Bear
deriving DecidableEq, Repr

def VoiceTextSpeaker.toText : VoiceTextSpeaker → String
  | .Show => "show"
  | .Haruka => "haruka"
  | .Hikari => "hikari"
  | .Takeru => "takeru"
  | .Santa => "santa"
  | .Bear => "bear"

def VoiceTextSpeaker.fromText (s : String) : Option VoiceTextSpeaker :=
  if s = "show" then some .Show
  else if s = "haruka" then some .Haruka
  else if s = "hikari" then some .Hikari
  else if s = "takeru" then some .Takeru
  else if s = "santa" then some .Santa
  else if s = "bear" then some .Bear
  else none

/-- Serde wire name of a speaker (derived serde uses the variant identifier). -/
def VoiceTextSpeaker.serdeName : VoiceTextSpeaker → String
  | .Show => "Show"
  | .Haruka => "Haruka"
  | .Hikari => "Hikari"
  | .Takeru => "Takeru"
  | .Santa => "Santa"
  | .Bear => "Bear"

inductive VoiceTextFormat where
  | Wav
  | Ogg
  | Mp3
deriving DecidableEq, Repr

def VoiceTextFormat.toText : VoiceTextFormat → String
  | .Wav => "wav"
  | .Ogg => "ogg"
  | .Mp3 => "mp3"

def VoiceTextFormat.fromText (s : String) : Option VoiceTextFormat :=
  if s = "wav" then some .Wav
  else if s = "ogg" then some .Ogg
  else if s = "mp3" then some .Mp3
  else none

def VoiceTextFormat.serdeName : VoiceTextFormat → String
  | .Wav => "Wav"
  | .Ogg => "Ogg"
  | .Mp3 => "Mp3"

inductive VoiceTextEmotion where
  | Happiness
  | Anger
  | Sadness
deriving DecidableEq, Repr

def VoiceTextEmotion.toText : VoiceTextEmotion → String
  | .Happiness => "happiness"
  | .Anger => "anger"
  | .Sadness => "sadness"

def VoiceTextEmotion.fromText (s : String) : Option VoiceTextEmotion :=
  if s = "happiness" then some .Happiness
  else if s = "anger" then some .Anger
  else if s = "sadness" then some .Sadness
  else none

def VoiceTextEmotion.serdeName : VoiceTextEmotion → String
  | .Happiness => "Happiness"
  | .Anger => "Anger"
  | .Sadness => "Sadness"

/-! ## Engine (`src/tts/mod.rs`), strum with `serialize_all = "lowercase"` -/

inductive Engine where
  | VoiceText
  | VoiceVox
deriving DecidableEq, Repr

def Engine.toText : Engine → String
  | .VoiceText => "voicetext"
  | .VoiceVox => "voicevox"

/-- Strum `FromStr` for `Engine`: an exact (case-sensitive) match of the
lowercase serialized forms, as derived without `ascii_case_insensitive`. -/
def Engine.fromText (s : String) : Option Engine :=
  if s = "voicetext" then some .VoiceText
  else if s = "voicevox" then some .VoiceVox
  else none

/-! ## VoiceVox speaker (`src/tts/voice_vox.rs`)

No `serialize_all` attribute, so strum Display / FromStr and the serde wire
name all use the variant identifier verbatim; the discriminant is the fixed
numeric wire ID. -/

inductive VoiceVoxSpeaker where
  | «四国めたん»
  | «四国めたんあまあま»
  | «四国めたんツンツン»
  | «四国めたんセクシー»
  | «ずんだもん»
  | «ずんだもんあまあま»
  | «ずんだもんツンツン»
  | «ずんだもんセクシー»
  | «春日部つむぎ»
  | «雨晴はう»
  | «波音リツ»
  | «玄野武宏»
  | «白上虎太郎»
  | «青山龍星»
  | «冥鳴ひまり»
  | «九州そら»
  | «九州そらあまあま»
  | «九州そらツンツン»
  | «九州そらセクシー»
  | «九州そらささやき»
deriving DecidableEq, Repr

/-- Explicit enum discriminants from the source (`四国めたん = 2`, ...). -/
def VoiceVoxSpeaker.toId : VoiceVoxSpeaker → Nat
  | .«四国めたん» => 2
  | .«四国めたんあまあま» => 0
  | .«四国めたんツンツン» => 6
  | .«四国めたんセクシー» => 4
  | .«ずんだもん» => 3
  | .«ずんだもんあまあま» => 1
  | .«ずんだもんツンツン» => 7
  | .«ずんだもんセクシー» => 5
  | .«春日部つむぎ» => 8
  | .«雨晴はう» => 10
  | .«波音リツ» => 9
  | .«玄野武宏» => 11
  | .«白上虎太郎» => 12
  | .«青山龍星» => 13
  | .«冥鳴ひまり» => 14
  | .«九州そら» => 16
  | .«九州そらあまあま» => 15
  | .«九州そらツンツン» => 18
  | .«九州そらセクシー» => 17
  | .«九州そらささやき» => 19

def VoiceVoxSpeaker.toText : VoiceVoxSpeaker → String
  | .«四国めたん» => "四国めたん"
  | .«四国めたんあまあま» => "四国めたんあまあま"
  | .«四国めたんツンツン» => "四国めたんツンツン"
  | .«四国めたんセクシー» => "四国めたんセクシー"
  | .«ずんだもん» => "ずんだもん"
  | .«ずんだもんあまあま» => "ずんだもんあまあま"
  | .«ずんだもんツンツン» => "ずんだもんツンツン"
  | .«ずんだもんセクシー» => "ずんだもんセクシー"
  | .«春日部つむぎ» => "春日部つむぎ"
  | .«雨晴はう» => "雨晴はう"
  | .«波音リツ» => "波音リツ"
  | .«玄野武宏» => "玄野武宏"
  | .«白上虎太郎» => "白上虎太郎"
  | .«青山龍星» => "青山龍星"
  | .«冥鳴ひまり» => "冥鳴ひまり"
  | .«九州そら» => "九州そら"
  | .«九州そらあまあま» => "九州そらあまあま"
  | .«九州そらツンツン» => "九州そらツンツン"
  | .«九州そらセクシー» => "九州そらセクシー"
  | .«九州そらささやき» => "九州そらささやき"

def VoiceVoxSpeaker.fromText (s : String) : Option VoiceVoxSpeaker :=
  if s = "四国めたん" then some .«四国めたん»
  else if s = "四国めたんあまあま" then some .«四国めたんあまあま»
  else if s = "四国めたんツンツン" then some .«四国めたんツンツン»
  else if s = "四国めたんセクシー" then some .«四国めたんセクシー»
  else if s = "ずんだもん" then some .«ずんだもん»
  else if s = "ずんだもんあまあま" then some .«ずんだもんあまあま»
  else if s = "ずんだもんツンツン" then some .«ずんだもんツンツン»
  else if s = "ずんだもんセクシー" then some .«ずんだもんセクシー»
  else if s = "春日部つむぎ" then some .«春日部つむぎ»
  else if s = "雨晴はう" then some .«雨晴はう»
  else if s = "波音リツ" then some .«波音リツ»
  else if s = "玄野武宏" then some .«玄野武宏»
  else if s = "白上虎太郎" then some .«白上虎太郎»
  else if s = "青山龍星" then some .«青山龍星»
  else if s = "冥鳴ひまり" then some .«冥鳴ひまり»
  else if s = "九州そら" then some .«九州そら»
  else if s = "九州そらあまあま" then some .«九州そらあまあま»
  else if s = "九州そらツンツン" then some .«九州そらツンツン»
  else if s = "九州そらセクシー" then some .«九州そらセクシー»
  else if s = "九州そらささやき" then some .«九州そらささやき»
  else none

/-! ## VoiceText options and builder -/

structure VoiceTextOptions where
  speaker : VoiceTextSpeaker
  format : VoiceTextFormat
  emotion : Option VoiceTextEmotion
  emotion_level : Nat
  pitch : Nat
  speed : Nat
  volume : Nat
deriving DecidableEq, Repr

/-- Builder state generated by derive_builder: every field wrapped in `Option`
(`None` = not yet supplied by a setter call). -/
structure VoiceTextOptionsBuilder where
  speaker : Option VoiceTextSpeaker := none
  format : Option VoiceTextFormat := none
  emotion : Option (Option VoiceTextEmotion) := none
  emotion_level : Option Nat := none
  pitch : Option Nat := none
  speed : Option Nat := none
  volume : Option Nat := none
deriving DecidableEq, Repr

def VoiceTextOptionsBuilder.default : VoiceTextOptionsBuilder :=
  ⟨none, none, none, none, none, none, none⟩

/-- First check of `validate`: fires only when both `emotion` and `speaker`
have been supplied, the emotion is `Some` and the speaker is `Show`. -/
def VoiceTextOptionsBuilder.emotionRuleBroken (b : VoiceTextOptionsBuilder) : Bool :=
  match b.emotion, b.speaker with
  | some (some _), some VoiceTextSpeaker.Show => true
  | _, _ => false

def VoiceTextOptionsBuilder.emotionLevelBad (b : VoiceTextOptionsBuilder) : Bool :=
  match b.emotion_level with
  | some l => decide (l < 1 ∨ l > 4)
  | none => false

def VoiceTextOptionsBuilder.pitchBad (b : VoiceTextOptionsBuilder) : Bool :=
  match b.pitch with
  | some p => decide (p < 50 ∨ p > 200)
  | none => false

def VoiceTextOptionsBuilder.speedBad (b : VoiceTextOptionsBuilder) : Bool :=
  match b.speed with
  | some v => decide (v < 50 ∨ v > 400)
  | none => false

def VoiceTextOptionsBuilder.volumeBad (b : VoiceTextOptionsBuilder) : Bool :=
  match b.volume with
  | some v => decide (v < 50 ∨ v > 200)
  | none => false

/-- `VoiceTextOptionsBuilder::validate`: the five checks in source order, each
returning its message immediately, so only the first broken rule is reported. -/
def VoiceTextOptionsBuilder.validate (b : VoiceTextOptionsBuilder) : Except String Unit :=
  if b.emotionRuleBroken then
    .error "emotion can be used when speaker is haruka, hikari, takeru santa, or bear"
  else if b.emotionLevelBad then
    .error "Bad emotion_level, must be 1 <= emotion_level <= 4"
  else if b.pitchBad then
    .error "Bad pitch, must be 50 <= pitch <= 200"
  else if b.speedBad then
    .error "Bad speed, must be 50 <= speed <= 400"
  else if b.volumeBad then
    .error "Bad volume, must be 50 <= volume <= 200"
  else .ok ()

/-- Error type of the derive_builder-generated `build` (one such type is
generated per builder in Rust; the two have the same shape and are shared
here). -/
inductive BuilderError where
  | uninitializedField (field : String)
  | validationError (msg : String)
deriving DecidableEq, Repr

/-- Derive_builder `build` with `build_fn(validate = "Self::validate")`:
run the validator, then unwrap the fields, erroring on the required `speaker`
when absent and substituting the declared defaults for the rest. -/
def VoiceTextOptionsBuilder.build (b : VoiceTextOptionsBuilder) :
    Except BuilderError VoiceTextOptions :=
  match b.validate with
  | .error msg => .error (.validationError msg)
  | .ok _ =>
    match b.speaker with
    | none => .error (.uninitializedField "speaker")
    | some speaker =>
      .ok
        { speaker := speaker
          format := b.format.getD .Wav
          emotion := b.emotion.getD none
          emotion_level := b.emotion_level.getD 2
          pitch := b.pitch.getD 100
          speed := b.speed.getD 100
          volume := b.volume.getD 100 }

/-! ## VoiceVox options and builder -/

structure VoiceVoxOptions where
  speaker : VoiceVoxSpeaker
  pitch : F64
  intonation_scale : F64
  speed : F64
deriving DecidableEq, Repr

structure VoiceVoxOptionsBuilder where
  speaker : Option VoiceVoxSpeaker := none
  pitch : Option F64 := none
  intonation_scale : Option F64 := none
  speed : Option F64 := none
deriving DecidableEq, Repr

def VoiceVoxOptionsBuilder.default : VoiceVoxOptionsBuilder :=
  ⟨none, none, none, none⟩

/-- Derive_builder `build` for VoiceVox: no validator is declared, so only the
required `speaker` can fail; the floats default to 0.0 / 1.0 / 1.0. -/
def VoiceVoxOptionsBuilder.build (b : VoiceVoxOptionsBuilder) :
    Except BuilderError VoiceVoxOptions :=
  match b.speaker with
  | none => .error (.uninitializedField "speaker")
  | some speaker =>
    .ok
      { speaker := speaker
        pitch := b.pitch.getD (.finite 0)
        intonation_scale := b.intonation_scale.getD (.finite 1)
        speed := b.speed.getD (.finite 1) }

/-! ## Option builder (`src/option_builder.rs`) -/

/-- Errors a single token can produce on the `build_voice_*_options` paths:
the static "key=value" context message, strum `VariantNotFound`, integer and
float parse errors, and the final builder error. -/
inductive TokenError where
  | formError
  | variantNotFound
  | intError (kind : IntErrorKind)
  | floatError
  | builderError (e : BuilderError)
deriving DecidableEq, Repr

/-- Recognized keys of the VoiceText arm of the option builder. -/
def vtKeys : List String := ["speaker", "emotion", "emotion_level", "pitch", "speed"]

/-- Key dispatch of the `build_voice_text_options` loop body (the Rust
`match key`): parse the value for a recognized key and store it in the
builder; unrecognized keys fall through to the no-op arm. -/
def stepVTKey (b : VoiceTextOptionsBuilder) (key value : String) :
    Except TokenError VoiceTextOptionsBuilder :=
  if key = "speaker" then
      match VoiceTextSpeaker.fromText value with
      | some s => .ok { b with speaker := some s }
      | none => .error .variantNotFound
    else if key = "emotion" then
      match VoiceTextEmotion.fromText value with
      | some e => .ok { b with emotion := some (some e) }
      | none => .error .variantNotFound
    else if key = "emotion_level" then
      match parseUnsigned 255 value with
      | .ok n => .ok { b with emotion_level := some n }
      | .error k => .error (.intError k)
    else if key = "pitch" then
      match parseUnsigned 255 value with
      | .ok n => .ok { b with pitch := some n }
      | .error k => .error (.intError k)
    else if key = "speed" then
      match parseUnsigned 65535 value with
      | .ok n => .ok { b with speed := some n }
      | .error k => .error (.intError k)
    else .ok b

/-- Loop body of `build_voice_text_options`: split one token at `=`, fail with
the fixed context message when no value part exists, then dispatch on the key. -/
def stepVT (b : VoiceTextOptionsBuilder) (t : String) :
    Except TokenError VoiceTextOptionsBuilder :=
  match parseKV t with
  | (_, none) => .error .formError
  | (key, some value) => stepVTKey b key value

def applyVT (b : VoiceTextOptionsBuilder) :
    List String → Except TokenError VoiceTextOptionsBuilder
  | [] => .ok b
  | t :: ts =>
    match stepVT b t with
    | .ok b2 => applyVT b2 ts
    | .error e => .error e

def build_voice_text_options (args : List String) : Except TokenError VoiceTextOptions :=
  match applyVT VoiceTextOptionsBuilder.default args with
  | .error e => .error e
  | .ok b =>
    match b.build with
    | .ok o => .ok o
    | .error e => .error (.builderError e)

/-- Recognized keys of the VoiceVox arm of the option builder. -/
def vvKeys : List String := ["speaker", "pitch", "intonationScale", "speed"]

/-- Key dispatch of the `build_voice_vox_options` loop body. -/
def stepVVKey (b : VoiceVoxOptionsBuilder) (key value : String) :
    Except TokenError VoiceVoxOptionsBuilder :=
  if key = "speaker" then
      match VoiceVoxSpeaker.fromText value with
      | some s => .ok { b with speaker := some s }
      | none => .error .variantNotFound
    else if key = "pitch" then
      match parse_f64 value with
      | some x => .ok { b with pitch := some x }
      | none => .error .floatError
    else if key = "intonationScale" then
      match parse_f64 value with
      | some x => .ok { b with intonation_scale := some x }
      | none => .error .floatError
    else if key = "speed" then
      match parse_f64 value with
      | some x => .ok { b with speed := some x }
      | none => .error .floatError
    else .ok b

/-- Loop body of `build_voice_vox_options`. -/
def stepVV (b : VoiceVoxOptionsBuilder) (t : String) :
    Except TokenError VoiceVoxOptionsBuilder :=
  match parseKV t with
  | (_, none) => .error .formError
  | (key, some value) => stepVVKey b key value

def applyVV (b : VoiceVoxOptionsBuilder) :
    List String → Except TokenError VoiceVoxOptionsBuilder
  | [] => .ok b
  | t :: ts =>
    match stepVV b t with
    | .ok b2 => applyVV b2 ts
    | .error e => .error e

def build_voice_vox_options (args : List String) : Except TokenError VoiceVoxOptions :=
  match applyVV VoiceVoxOptionsBuilder.default args with
  | .error e => .error e
  | .ok b =>
    match b.build with
    | .ok o => .ok o
    | .error e => .error (.builderError e)

/-! ## Options union and option storage (`src/tts/mod.rs`, `src/option_storage.rs`) -/

/-- Tagged union over the two option schemas (Rust `tts::Options`; the Rust
constructor names `VoiceTextOptions` / `VoiceVoxOptions` collide with the
struct names in Lean, hence the lower camel case). -/
inductive Options where
  | voiceTextOptions (o : VoiceTextOptions)
  | voiceVoxOptions (o : VoiceVoxOptions)
deriving DecidableEq, Repr

/-- The `DEFAULT_OPTIONS` constant of `option_storage.rs`. -/
def DEFAULT_OPTIONS : Options :=
  .voiceTextOptions
    { speaker := .Show
      format := .Wav
      emotion := none
      emotion_level := 2
      pitch := 100
      speed := 100
      volume := 100 }

/-- Insert-or-replace on an association list, modelling `HashMap::insert`. -/
def insertAssoc (k : Nat) (v : Options) :
    List (Nat × Options) → List (Nat × Options)
  | [] => [(k, v)]
  | (k2, v2) :: rest =>
    if k2 = k then (k, v) :: rest else (k2, v2) :: insertAssoc k v rest

/-- Lookup on an association list, modelling `HashMap::get`. -/
def lookupAssoc (k : Nat) : List (Nat × Options) → Option Options
  | [] => none
  | (k2, v2) :: rest => if k2 = k then some v2 else lookupAssoc k rest

/-- The option store: its in-memory cache, keyed by the `u64` user id.  The
MySQL pool handle carries no in-process state the claims touch; the durable
write and the initial row fetch appear as explicit parameters of `set` and
`connect` below, so that the claims can quantify over their success and
failure. -/
structure OptionStorage where
  cache : List (Nat × Options)
deriving DecidableEq, Repr

/-- `OptionStorage::get`: cached value or the process-wide default; total. -/
def OptionStorage.get (s : OptionStorage) (userId : Nat) : Options :=
  (lookupAssoc userId s.cache).getD DEFAULT_OPTIONS

/-- `OptionStorage::set`: the durable `REPLACE INTO` (whose outcome, including
the serialization step before it, is the `write` parameter) runs first and
propagates its error via `?`, leaving `self` untouched; only on success is the
cache updated.  The returned pair is the call result together with the state of
`self` after the call. -/
def OptionStorage.set (s : OptionStorage) (userId : Nat) (options : Options)
    (write : Except String Unit) : Except String Unit × OptionStorage :=
  match write with
  | .error e => (.error e, s)
  | .ok _ => (.ok (), { cache := insertAssoc userId options s.cache })

/-! ## JSON values and the serde decoding of `Options` (for `connect`) -/

/-- JSON values as relevant to the stored `options` column. -/
inductive Json where
  | null
  | bool (b : Bool)
  | num (q : Rat)
  | str (s : String)
  | obj (fields : List (String × Json))

/-- First field with the given name, as serde consumes a JSON map. -/
def jsonLookup (fields : List (String × Json)) (key : String) : Option Json :=
  match fields with
  | [] => none
  | (k, v) :: rest => if k = key then some v else jsonLookup rest key

/-- Serde `u8` from a JSON value: an integral number within range (the model
conflates integral floats with integers; no claim depends on that corner). -/
def decodeU8 (j : Json) : Option Nat :=
  match j with
  | .num q => if q.den = 1 ∧ 0 ≤ q.num ∧ q.num ≤ 255 then some q.num.toNat else none
  | _ => none

def decodeU16 (j : Json) : Option Nat :=
  match j with
  | .num q => if q.den = 1 ∧ 0 ≤ q.num ∧ q.num ≤ 65535 then some q.num.toNat else none
  | _ => none

def decodeF64 (j : Json) : Option F64 :=
  match j with
  | .num q => some (.finite q)
  | _ => none

def decodeVTSpeaker (j : Json) : Option VoiceTextSpeaker :=
  match j with
  | .str s =>
    if s = "Show" then some .Show
    else if s = "Haruka" then some .Haruka
    else if s = "Hikari" then some .Hikari
    else if s = "Takeru" then some .Takeru
    else if s = "Santa" then some .Santa
    else if s = "Bear" then some .Bear
    else none
  | _ => none

def decodeVTFormat (j : Json) : Option VoiceTextFormat :=
  match j with
  | .str s =>
    if s = "Wav" then some .Wav
    else if s = "Ogg" then some .Ogg
    else if s = "Mp3" then some .Mp3
    else none
  | _ => none

def decodeVTEmotion (j : Json) : Option VoiceTextEmotion :=
  match j with
  | .str s =>
    if s = "Happiness" then some .Happiness
    else if s = "Anger" then some .Anger
    else if s = "Sadness" then some .Sadness
    else none
  | _ => none

/-- Serde decode of `VoiceTextOptions` from a JSON map: every non-`Option`
field is required; the `Option` field `emotion` treats a missing field and an
explicit `null` as `None`. -/
def decodeVoiceTextOptions (j : Json) : Option VoiceTextOptions :=
  match j with
  | .obj fields => do
    let speaker ← jsonLookup fields "speaker" >>= decodeVTSpeaker
    let format ← jsonLookup fields "format" >>= decodeVTFormat
    let emotion ←
      match jsonLookup fields "emotion" with
      | none => some none
      | some Json.null => some none
      | some ej => (decodeVTEmotion ej).map some
    let emotionLevel ← jsonLookup fields "emotion_level" >>= decodeU8
    let pitch ← jsonLookup fields "pitch" >>= decodeU8
    let speed ← jsonLookup fields "speed" >>= decodeU16
    let volume ← jsonLookup fields "volume" >>= decodeU8
    some
      { speaker := speaker
        format := format
        emotion := emotion
        emotion_level := emotionLevel
        pitch := pitch
        speed := speed
        volume := volume }
  | _ => none

def decodeVVSpeaker (j : Json) : Option VoiceVoxSpeaker :=
  match j with
  | .str s => VoiceVoxSpeaker.fromText s
  | _ => none

def decodeVoiceVoxOptions (j : Json) : Option VoiceVoxOptions :=
  match j with
  | .obj fields => do
    let speaker ← jsonLookup fields "speaker" >>= decodeVVSpeaker
    let pitch ← jsonLookup fields "pitch" >>= decodeF64
    let intonationScale ← jsonLookup fields "intonation_scale" >>= decodeF64
    let speed ← jsonLookup fields "speed" >>= decodeF64
    some
      { speaker := speaker
        pitch := pitch
        intonation_scale := intonationScale
        speed := speed }
  | _ => none

/-- Serde decode of the externally tagged `Options` enum: a one-entry JSON map
whose key is the variant name. -/
def decodeOptions (j : Json) : Option Options :=
  match j with
  | .obj [(tag, inner)] =>
    if tag = "VoiceTextOptions" then (decodeVoiceTextOptions inner).map .voiceTextOptions
    else if tag = "VoiceVoxOptions" then (decodeVoiceVoxOptions inner).map .voiceVoxOptions
    else none
  | _ => none

/-- One fetched row of the `options` table: the `u64` key and the nullable
JSON column. -/
structure OptionsRow where
  user_id : Nat
  options : Option Json

/-- Result of `OptionStorage::connect`: a ready store, a returned error, or a
process abort (the `unwrap()` calls in the row-decoding closure). -/
inductive ConnectOutcome where
  | ok (storage : OptionStorage)
  | err (e : String)
  | crashed

/-- Row-decoding loop of `connect` (`HashMap::from_iter` over the mapped rows,
insertion order preserved so that a later duplicate key overwrites an earlier
one): `r.options.unwrap()` aborts on a NULL column and
`serde_json::from_value(..).unwrap()` aborts on a decode failure. -/
def loadCacheAux (acc : List (Nat × Options)) :
    List OptionsRow → Option (List (Nat × Options))
  | [] => some acc
  | r :: rest =>
    match r.options with
    | none => none
    | some j =>
      match decodeOptions j with
      | none => none
      | some o => loadCacheAux (insertAssoc r.user_id o acc) rest

/-- `OptionStorage::connect`: pool connection and the `SELECT` of all rows are
the two fallible inputs (each `?`-propagated); the decoding of the fetched rows
follows as `loadCacheAux`. -/
def OptionStorage.connect (conn : Except String Unit)
    (fetch : Except String (List OptionsRow)) : ConnectOutcome :=
  match conn with
  | .error e => .err e
  | .ok _ =>
    match fetch with
    | .error e => .err e
    | .ok records =>
      match loadCacheAux [] records with
      | none => .crashed
      | some cache => .ok { cache := cache }

/-! ## Helper lemmas about token splitting and the builder loops -/

theorem splitEq_ne_nil (cs : List Char) : splitEq cs ≠ [] := by
  match cs with
  | [] => simp [splitEq]
  | c :: rest =>
    unfold splitEq
    split_ifs
    · simp
    · cases h : splitEq rest <;> simp [h]

theorem splitEq_no_eq : ∀ cs : List Char, '=' ∉ cs → splitEq cs = [cs]
  | [], _ => rfl
  | c :: rest, h => by
    have hc : ¬ c = '=' := fun hc => h (by simp [hc])
    have ih := splitEq_no_eq rest (fun hm => h (List.mem_cons_of_mem c hm))
    unfold splitEq
    rw [if_neg hc, ih]

theorem splitEq_append : ∀ pre rest : List Char, '=' ∉ pre →
    splitEq (pre ++ '=' :: rest) = pre :: splitEq rest
  | [], rest, _ => by
    show splitEq ('=' :: rest) = [] :: splitEq rest
    conv_lhs => rw [splitEq]
    rw [if_pos rfl]
  | c :: pre, rest, h => by
    have hc : ¬ c = '=' := fun hc => h (by simp [hc])
    have ih := splitEq_append pre rest (fun hm => h (List.mem_cons_of_mem c hm))
    show splitEq (c :: (pre ++ '=' :: rest)) = (c :: pre) :: splitEq rest
    conv_lhs => rw [splitEq]
    rw [if_neg hc, ih]

theorem splitEq_two_of_mem : ∀ cs : List Char, '=' ∈ cs →
    ∃ k v rest, splitEq cs = k :: v :: rest
  | [], h => absurd h (by simp)
  | c :: rest, h => by
    unfold splitEq
    by_cases hc : c = '='
    · rw [if_pos hc]
      cases hsr : splitEq rest with
      | nil => exact absurd hsr (splitEq_ne_nil rest)
      | cons s ss => exact ⟨[], s, ss, rfl⟩
    · rw [if_neg hc]
      have hm : '=' ∈ rest := by
        rcases List.mem_cons.mp h with h1 | h2
         
        · exact absurd h1.symm hc
        · exact h2
      obtain ⟨k, v, rs, hkv⟩ := splitEq_two_of_mem rest hm
      exact ⟨c :: k, v, rs, by rw [hkv]⟩

theorem parseKV_no_eq (t : String) (h : '=' ∉ t.data) : parseKV t = (t, none) := by
  obtain ⟨cs⟩ := t
  unfold parseKV
  rw [splitEq_no_eq cs h]
  rfl

theorem parseKV_some_of_mem (t : String) (h : '=' ∈ t.data) :
    ∃ v, (parseKV t).2 = some v := by
  obtain ⟨k, v, rest, hkv⟩ := splitEq_two_of_mem t.data h
  unfold parseKV
  rw [hkv]
  exact ⟨String.mk v, rfl⟩

theorem composed_data (k v : String) : (k ++ "=" ++ v).data = k.data ++ '=' :: v.data := by
  simp [String.data_append]

theorem parseKV_composed (k v : String) (hk : '=' ∉ k.data) :
    (parseKV (k ++ "=" ++ v)).1 = k := by
  obtain ⟨kcs⟩ := k
  unfold parseKV
  rw [composed_data, splitEq_append kcs v.data hk]

theorem applyVT_append : ∀ (xs : List String) (b : VoiceTextOptionsBuilder) (ys : List String),
    applyVT b (xs ++ ys) =
      match applyVT b xs with
      | .ok b2 => applyVT b2 ys
      | .error e => .error e
  | [], b, ys => rfl
  | t :: ts, b, ys => by
    show applyVT b (t :: (ts ++ ys)) = _
    simp only [applyVT]
    cases h : stepVT b t with
    | error e => simp [h]
    | ok b2 =>
      simp only [h]
      exact applyVT_append ts b2 ys

theorem applyVV_append : ∀ (xs : List String) (b : VoiceVoxOptionsBuilder) (ys : List String),
    applyVV b (xs ++ ys) =
      match applyVV b xs with
      | .ok b2 => applyVV b2 ys
      | .error e => .error e
  | [], b, ys => rfl
  | t :: ts, b, ys => by
    show applyVV b (t :: (ts ++ ys)) = _
    simp only [applyVV]
    cases h : stepVV b t with
    | error e => simp [h]
    | ok b2 =>
      simp only [h]
      exact applyVV_append ts b2 ys

/-! ## Field-agreement machinery for the overwrite (last occurrence wins) claims -/

/-- Two VoiceText builder states agreeing on every field except possibly the
one addressed by key `k`. -/
def vtAgreeExcept (k : String) (b1 b2 : VoiceTextOptionsBuilder) : Prop :=
  (k ≠ "speaker" → b1.speaker = b2.speaker) ∧
  (k ≠ "emotion" → b1.emotion = b2.emotion) ∧
  (k ≠ "emotion_level" → b1.emotion_level = b2.emotion_level) ∧
  (k ≠ "pitch" → b1.pitch = b2.pitch) ∧
  (k ≠ "speed" → b1.speed = b2.speed) ∧
  b1.format = b2.format ∧ b1.volume = b2.volume

theorem vtAgree_refl (k : String) (b : VoiceTextOptionsBuilder) : vtAgreeExcept k b b :=
  ⟨fun _ => rfl, fun _ => rfl, fun _ => rfl, fun _ => rfl, fun _ => rfl, rfl, rfl⟩

theorem vtAgree_symm (k : String) (b1 b2 : VoiceTextOptionsBuilder)
    (h : vtAgreeExcept k b1 b2) : vtAgreeExcept k b2 b1 :=
  ⟨fun hn => (h.1 hn).symm, fun hn => (h.2.1 hn).symm, fun hn => (h.2.2.1 hn).symm,
   fun hn => (h.2.2.2.1 hn).symm, fun hn => (h.2.2.2.2.1 hn).symm,
   h.2.2.2.2.2.1.symm, h.2.2.2.2.2.2.symm⟩

theorem stepVTKey_error_congr (b1 b2 : VoiceTextOptionsBuilder) (key value : String)
    (e : TokenError) (h : stepVTKey b1 key value = .error e) :
    stepVTKey b2 key value = .error e := by
  unfold stepVTKey at h ⊢
  split_ifs at h ⊢ with hk1 hk2 hk3 hk4 hk5
  · cases hf : VoiceTextSpeaker.fromText value <;> rw [hf] at h <;> first | exact h | cases h
  · cases hf : VoiceTextEmotion.fromText value <;> rw [hf] at h <;> first | exact h | cases h
  · cases hp : parseUnsigned 255 value <;> rw [hp] at h <;> first | exact h | cases h
  · cases hp : parseUnsigned 255 value <;> rw [hp] at h <;> first | exact h | cases h
  · cases hp : parseUnsigned 65535 value <;> rw [hp] at h <;> first | exact h | cases h

theorem stepVTKey_self_agree (b c : VoiceTextOptionsBuilder) (key value : String)
    (h : stepVTKey b key value = .ok c) : vtAgreeExcept key b c := by
  unfold stepVTKey at h
  split_ifs at h with hk1 hk2 hk3 hk4 hk5
  · cases hf : VoiceTextSpeaker.fromText value <;> rw [hf] at h
    · cases h
    · cases h
      subst hk1
      exact ⟨fun hn => absurd rfl hn, fun _ => rfl, fun _ => rfl, fun _ => rfl,
        fun _ => rfl, rfl, rfl⟩
  · cases hf : VoiceTextEmotion.fromText value <;> rw [hf] at h
    · cases h
    · cases h
      subst hk2
      exact ⟨fun _ => rfl, fun hn => absurd rfl hn, fun _ => rfl, fun _ => rfl,
        fun _ => rfl, rfl, rfl⟩
  · cases hp : parseUnsigned 255 value <;> rw [hp] at h
    · cases h
    · cases h
      subst hk3
      exact ⟨fun _ => rfl, fun _ => rfl, fun hn => absurd rfl hn, fun _ => rfl,
        fun _ => rfl, rfl, rfl⟩
  · cases hp : parseUnsigned 255 value <;> rw [hp] at h
    · cases h
    · cases h
      subst hk4
      exact ⟨fun _ => rfl, fun _ => rfl, fun _ => rfl, fun hn => absurd rfl hn,
        fun _ => rfl, rfl, rfl⟩
  · cases hp : parseUnsigned 65535 value <;> rw [hp] at h
    · cases h
    · cases h
      subst hk5
      exact ⟨fun _ => rfl, fun _ => rfl, fun _ => rfl, fun _ => rfl,
        fun hn => absurd rfl hn, rfl, rfl⟩
  · cases h
    exact vtAgree_refl key b

theorem stepVTKey_ok_ok (k key value : String) (b1 b2 c1 c2 : VoiceTextOptionsBuilder)
    (hag : vtAgreeExcept k b1 b2)
    (h1 : stepVTKey b1 key value = .ok c1) (h2 : stepVTKey b2 key value = .ok c2) :
    (¬ key = k → vtAgreeExcept k c1 c2) ∧ (key = k → c1 = c2) := by
  obtain ⟨b1s, b1f, b1e, b1l, b1p, b1sp, b1v⟩ := b1
  obtain ⟨b2s, b2f, b2e, b2l, b2p, b2sp, b2v⟩ := b2
  obtain ⟨ha1, ha2, ha3, ha4, ha5, ha6, ha7⟩ := hag
  unfold stepVTKey at h1 h2
  split_ifs at h1 h2 with hk1 hk2 hk3 hk4 hk5
  · cases hf : VoiceTextSpeaker.fromText value <;> rw [hf] at h1 h2
    · cases h1
    · cases h1
      cases h2
      subst hk1
      refine ⟨fun hne => ⟨fun _ => rfl, ha2, ha3, ha4, ha5, ha6, ha7⟩, fun hkk => ?_⟩
      subst hkk
      have e2 := ha2 (by decide)
      have e3 := ha3 (by decide)
      have e4 := ha4 (by decide)
      have e5 := ha5 (by decide)
      simp_all
  · cases hf : VoiceTextEmotion.fromText value <;> rw [hf] at h1 h2
    · cases h1
    · cases h1
      cases h2
      subst hk2
      refine ⟨fun hne => ⟨ha1, fun _ => rfl, ha3, ha4, ha5, ha6, ha7⟩, fun hkk => ?_⟩
      subst hkk
      have e1 := ha1 (by decide)
      have e3 := ha3 (by decide)
      have e4 := ha4 (by decide)
      have e5 := ha5 (by decide)
      simp_all
  · cases hp : parseUnsigned 255 value <;> rw [hp] at h1 h2
    · cases h1
    · cases h1
      cases h2
      subst hk3
      refine ⟨fun hne => ⟨ha1, ha2, fun _ => rfl, ha4, ha5, ha6, ha7⟩, fun hkk => ?_⟩
      subst hkk
      have e1 := ha1 (by decide)
      have e2 := ha2 (by decide)
      have e4 := ha4 (by decide)
      have e5 := ha5 (by decide)
      simp_all
  · cases hp : parseUnsigned 255 value <;> rw [hp] at h1 h2
    · cases h1
    · cases h1
      cases h2
      subst hk4
      refine ⟨fun hne => ⟨ha1, ha2, ha3, fun _ => rfl, ha5, ha6, ha7⟩, fun hkk => ?_⟩
      subst hkk
      have e1 := ha1 (by decide)
      have e2 := ha2 (by decide)
      have e3 := ha3 (by decide)
      have e5 := ha5 (by decide)
      simp_all
  · cases hp : parseUnsigned 65535 value <;> rw [hp] at h1 h2
    · cases h1
    · cases h1
      cases h2
      subst hk5
      refine ⟨fun hne => ⟨ha1, ha2, ha3, ha4, fun _ => rfl, ha6, ha7⟩, fun hkk => ?_⟩
      subst hkk
      have e1 := ha1 (by decide)
      have e2 := ha2 (by decide)
      have e3 := ha3 (by decide)
      have e4 := ha4 (by decide)
      simp_all
  · cases h1
    cases h2
    refine ⟨fun hne => ⟨ha1, ha2, ha3, ha4, ha5, ha6, ha7⟩, fun hkk => ?_⟩
    subst hkk
    have e1 := ha1 hk1
    have e2 := ha2 hk2
    have e3 := ha3 hk3
    have e4 := ha4 hk4
    have e5 := ha5 hk5
    simp_all

theorem stepVT_error_congr (b1 b2 : VoiceTextOptionsBuilder) (t : String)
    (e : TokenError) (h : stepVT b1 t = .error e) : stepVT b2 t = .error e := by
  unfold stepVT at h ⊢
  rcases hkv : parseKV t with ⟨key, val⟩
  rw [hkv] at h
  cases val
  · exact h
  · exact stepVTKey_error_congr b1 b2 key _ e h

theorem stepVT_ok_ok (k : String) (t : String) (b1 b2 c1 c2 : VoiceTextOptionsBuilder)
    (hag : vtAgreeExcept k b1 b2)
    (h1 : stepVT b1 t = .ok c1) (h2 : stepVT b2 t = .ok c2) :
    (¬ (parseKV t).1 = k → vtAgreeExcept k c1 c2) ∧ ((parseKV t).1 = k → c1 = c2) := by
  unfold stepVT at h1 h2
  rcases hkv : parseKV t with ⟨key, val⟩
  rw [hkv] at h1 h2
  cases val
  · cases h1
  · exact stepVTKey_ok_ok k key _ b1 b2 c1 c2 hag h1 h2

theorem stepVT_self_agree (t : String) (b c : VoiceTextOptionsBuilder)
    (h : stepVT b t = .ok c) : vtAgreeExcept (parseKV t).1 b c := by
  unfold stepVT at h
  rcases hkv : parseKV t with ⟨key, val⟩
  rw [hkv] at h
  cases val
  · cases h
  · exact stepVTKey_self_agree b c key _ h

theorem applyVT_agree (k : String) :
    ∀ (ts : List String) (b1 b2 : VoiceTextOptionsBuilder),
    vtAgreeExcept k b1 b2 → (∃ t2 ∈ ts, (parseKV t2).1 = k) →
    applyVT b1 ts = applyVT b2 ts
  | [], _, _, _, hex => absurd hex (by simp)
  | t :: ts, b1, b2, hag, hex => by
    simp only [applyVT]
    cases h1 : stepVT b1 t with
    | error e => rw [stepVT_error_congr b1 b2 t e h1]
    | ok c1 =>
      cases h2 : stepVT b2 t with
      | error e2 =>
        have := stepVT_error_congr b2 b1 t e2 h2
        rw [h1] at this
        cases this
      | ok c2 =>
        have hstep := stepVT_ok_ok k t b1 b2 c1 c2 hag h1 h2
        by_cases hkk : (parseKV t).1 = k
        · rw [hstep.2 hkk]
        · have hex2 : ∃ t2 ∈ ts, (parseKV t2).1 = k := by
            rcases hex with ⟨t2, hmem, hkey⟩
            rcases List.mem_cons.mp hmem with h | hmem2
            · subst h
              exact absurd hkey hkk
            · exact ⟨t2, hmem2, hkey⟩
          exact applyVT_agree k ts c1 c2 (hstep.1 hkk) hex2

theorem stepVTKey_unknown (b : VoiceTextOptionsBuilder) (key value : String)
    (h : key ∉ vtKeys) : stepVTKey b key value = .ok b := by
  obtain ⟨n1, n2, n3, n4, n5⟩ :
      ¬key = "speaker" ∧ ¬key = "emotion" ∧ ¬key = "emotion_level" ∧
        ¬key = "pitch" ∧ ¬key = "speed" := by
    simpa [vtKeys, not_or] using h
  unfold stepVTKey
  rw [if_neg n1, if_neg n2, if_neg n3, if_neg n4, if_neg n5]

theorem stepVT_unknown (b : VoiceTextOptionsBuilder) (t : String)
    (hmem : '=' ∈ t.data) (h : (parseKV t).1 ∉ vtKeys) : stepVT b t = .ok b := by
  obtain ⟨v, hv⟩ := parseKV_some_of_mem t hmem
  unfold stepVT
  rcases hkv : parseKV t with ⟨key, val⟩
  rw [hkv] at hv h
  cases hv
  exact stepVTKey_unknown b key v h

theorem stepVT_no_eq (b : VoiceTextOptionsBuilder) (t : String)
    (h : '=' ∉ t.data) : stepVT b t = .error .formError := by
  unfold stepVT
  rw [parseKV_no_eq t h]

/-- Two VoiceVox builder states agreeing on every field except possibly the
one addressed by key `k`. -/
def vvAgreeExcept (k : String) (b1 b2 : VoiceVoxOptionsBuilder) : Prop :=
  (k ≠ "speaker" → b1.speaker = b2.speaker) ∧
  (k ≠ "pitch" → b1.pitch = b2.pitch) ∧
  (k ≠ "intonationScale" → b1.intonation_scale = b2.intonation_scale) ∧
  (k ≠ "speed" → b1.speed = b2.speed)

theorem vvAgree_refl (k : String) (b : VoiceVoxOptionsBuilder) : vvAgreeExcept k b b :=
  ⟨fun _ => rfl, fun _ => rfl, fun _ => rfl, fun _ => rfl⟩

theorem vvAgree_symm (k : String) (b1 b2 : VoiceVoxOptionsBuilder)
    (h : vvAgreeExcept k b1 b2) : vvAgreeExcept k b2 b1 :=
  ⟨fun hn => (h.1 hn).symm, fun hn => (h.2.1 hn).symm, fun hn => (h.2.2.1 hn).symm,
   fun hn => (h.2.2.2 hn).symm⟩

theorem stepVVKey_error_congr (b1 b2 : VoiceVoxOptionsBuilder) (key value : String)
    (e : TokenError) (h : stepVVKey b1 key value = .error e) :
    stepVVKey b2 key value = .error e := by
  unfold stepVVKey at h ⊢
  split_ifs at h ⊢ with hk1 hk2 hk3 hk4
  · cases hf : VoiceVoxSpeaker.fromText value <;> rw [hf] at h <;> first | exact h | cases h
  · cases hp : parse_f64 value <;> rw [hp] at h <;> first | exact h | cases h
  · cases hp : parse_f64 value <;> rw [hp] at h <;> first | exact h | cases h
  · cases hp : parse_f64 value <;> rw [hp] at h <;> first | exact h | cases h

theorem stepVVKey_self_agree (b c : VoiceVoxOptionsBuilder) (key value : String)
    (h : stepVVKey b key value = .ok c) : vvAgreeExcept key b c := by
  unfold stepVVKey at h
  split_ifs at h with hk1 hk2 hk3 hk4
  · cases hf : VoiceVoxSpeaker.fromText value <;> rw [hf] at h
    · cases h
    · cases h
      subst hk1
      exact ⟨fun hn => absurd rfl hn, fun _ => rfl, fun _ => rfl, fun _ => rfl⟩
  · cases hp : parse_f64 value <;> rw [hp] at h
    · cases h
    · cases h
      subst hk2
      exact ⟨fun _ => rfl, fun hn => absurd rfl hn, fun _ => rfl, fun _ => rfl⟩
  · cases hp : parse_f64 value <;> rw [hp] at h
    · cases h
    · cases h
      subst hk3
      exact ⟨fun _ => rfl, fun _ => rfl, fun hn => absurd rfl hn, fun _ => rfl⟩
  · cases hp : parse_f64 value <;> rw [hp] at h
    · cases h
    · cases h
      subst hk4
      exact ⟨fun _ => rfl, fun _ => rfl, fun _ => rfl, fun hn => absurd rfl hn⟩
  · cases h
    exact vvAgree_refl key b

theorem stepVVKey_ok_ok (k key value : String) (b1 b2 c1 c2 : VoiceVoxOptionsBuilder)
    (hag : vvAgreeExcept k b1 b2)
    (h1 : stepVVKey b1 key value = .ok c1) (h2 : stepVVKey b2 key value = .ok c2) :
    (¬ key = k → vvAgreeExcept k c1 c2) ∧ (key = k → c1 = c2) := by
  obtain ⟨b1s, b1p, b1i, b1sp⟩ := b1
  obtain ⟨b2s, b2p, b2i, b2sp⟩ := b2
  obtain ⟨ha1, ha2, ha3, ha4⟩ := hag
  unfold stepVVKey at h1 h2
  split_ifs at h1 h2 with hk1 hk2 hk3 hk4
  · cases hf : VoiceVoxSpeaker.fromText value <;> rw [hf] at h1 h2
    · cases h1
    · cases h1
      cases h2
      subst hk1
      refine ⟨fun hne => ⟨fun _ => rfl, ha2, ha3, ha4⟩, fun hkk => ?_⟩
      subst hkk
      have e2 := ha2 (by decide)
      have e3 := ha3 (by decide)
      have e4 := ha4 (by decide)
      simp_all
  · cases hp : parse_f64 value <;> rw [hp] at h1 h2
    · cases h1
    · cases h1
      cases h2
      subst hk2
      refine ⟨fun hne => ⟨ha1, fun _ => rfl, ha3, ha4⟩, fun hkk => ?_⟩
      subst hkk
      have e1 := ha1 (by decide)
      have e3 := ha3 (by decide)
      have e4 := ha4 (by decide)
      simp_all
  · cases hp : parse_f64 value <;> rw [hp] at h1 h2
    · cases h1
    · cases h1
      cases h2
      subst hk3
      refine ⟨fun hne => ⟨ha1, ha2, fun _ => rfl, ha4⟩, fun hkk => ?_⟩
      subst hkk
      have e1 := ha1 (by decide)
      have e2 := ha2 (by decide)
      have e4 := ha4 (by decide)
      simp_all
  · cases hp : parse_f64 value <;> rw [hp] at h1 h2
    · cases h1
    · cases h1
      cases h2
      subst hk4
      refine ⟨fun hne => ⟨ha1, ha2, ha3, fun _ => rfl⟩, fun hkk => ?_⟩
      subst hkk
      have e1 := ha1 (by decide)
      have e2 := ha2 (by decide)
      have e3 := ha3 (by decide)
      simp_all
  · cases h1
    cases h2
    refine ⟨fun hne => ⟨ha1, ha2, ha3, ha4⟩, fun hkk => ?_⟩
    subst hkk
    have e1 := ha1 hk1
    have e2 := ha2 hk2
    have e3 := ha3 hk3
    have e4 := ha4 hk4
    simp_all

theorem stepVV_error_congr (b1 b2 : VoiceVoxOptionsBuilder) (t : String)
    (e : TokenError) (h : stepVV b1 t = .error e) : stepVV b2 t = .error e := by
  unfold stepVV at h ⊢
  rcases hkv : parseKV t with ⟨key, val⟩
  rw [hkv] at h
  cases val
  · exact h
  · exact stepVVKey_error_congr b1 b2 key _ e h

theorem stepVV_ok_ok (k : String) (t : String) (b1 b2 c1 c2 : VoiceVoxOptionsBuilder)
    (hag : vvAgreeExcept k b1 b2)
    (h1 : stepVV b1 t = .ok c1) (h2 : stepVV b2 t = .ok c2) :
    (¬ (parseKV t).1 = k → vvAgreeExcept k c1 c2) ∧ ((parseKV t).1 = k → c1 = c2) := by
  unfold stepVV at h1 h2
  rcases hkv : parseKV t with ⟨key, val⟩
  rw [hkv] at h1 h2
  cases val
  · cases h1
  · exact stepVVKey_ok_ok k key _ b1 b2 c1 c2 hag h1 h2

theorem stepVV_self_agree (t : String) (b c : VoiceVoxOptionsBuilder)
    (h : stepVV b t = .ok c) : vvAgreeExcept (parseKV t).1 b c := by
  unfold stepVV at h
  rcases hkv : parseKV t with ⟨key, val⟩
  rw [hkv] at h
  cases val
  · cases h
  · exact stepVVKey_self_agree b c key _ h

theorem applyVV_agree (k : String) :
    ∀ (ts : List String) (b1 b2 : VoiceVoxOptionsBuilder),
    vvAgreeExcept k b1 b2 → (∃ t2 ∈ ts, (parseKV t2).1 = k) →
    applyVV b1 ts = applyVV b2 ts
  | [], _, _, _, hex => absurd hex (by simp)
  | t :: ts, b1, b2, hag, hex => by
    simp only [applyVV]
    cases h1 : stepVV b1 t with
    | error e => rw [stepVV_error_congr b1 b2 t e h1]
    | ok c1 =>
      cases h2 : stepVV b2 t with
      | error e2 =>
        have := stepVV_error_congr b2 b1 t e2 h2
        rw [h1] at this
        cases this
      | ok c2 =>
        have hstep := stepVV_ok_ok k t b1 b2 c1 c2 hag h1 h2
        by_cases hkk : (parseKV t).1 = k
        · rw [hstep.2 hkk]
        · have hex2 : ∃ t2 ∈ ts, (parseKV t2).1 = k := by
            rcases hex with ⟨t2, hmem, hkey⟩
            rcases List.mem_cons.mp hmem with h | hmem2
            · subst h
              exact absurd hkey hkk
            · exact ⟨t2, hmem2, hkey⟩
          exact applyVV_agree k ts c1 c2 (hstep.1 hkk) hex2

theorem stepVVKey_unknown (b : VoiceVoxOptionsBuilder) (key value : String)
    (h : key ∉ vvKeys) : stepVVKey b key value = .ok b := by
  obtain ⟨n1, n2, n3, n4⟩ :
      ¬key = "speaker" ∧ ¬key = "pitch" ∧ ¬key = "intonationScale" ∧ ¬key = "speed" := by
    simpa [vvKeys, not_or] using h
  unfold stepVVKey
  rw [if_neg n1, if_neg n2, if_neg n3, if_neg n4]

theorem stepVV_unknown (b : VoiceVoxOptionsBuilder) (t : String)
    (hmem : '=' ∈ t.data) (h : (parseKV t).1 ∉ vvKeys) : stepVV b t = .ok b := by
  obtain ⟨v, hv⟩ := parseKV_some_of_mem t hmem
  unfold stepVV
  rcases hkv : parseKV t with ⟨key, val⟩
  rw [hkv] at hv h
  cases hv
  exact stepVVKey_unknown b key v h

theorem stepVV_no_eq (b : VoiceVoxOptionsBuilder) (t : String)
    (h : '=' ∉ t.data) : stepVV b t = .error .formError := by
  unfold stepVV
  rw [parseKV_no_eq t h]

/-! ## Storage lemmas -/

theorem lookupAssoc_insert (k : Nat) (v : Options) :
    ∀ l : List (Nat × Options), lookupAssoc k (insertAssoc k v l) = some v
  | [] => by simp [insertAssoc, lookupAssoc]
  | (k2, v2) :: rest => by
    by_cases h : k2 = k
    · simp [insertAssoc, h, lookupAssoc]
    · simp [insertAssoc, h, lookupAssoc, lookupAssoc_insert k v rest]

/-! ## Claim theorems -/

/-- C1: if the durable write inside `OptionStorage::set` fails, `set` returns
that error and the store (hence the cache entry for the user) is left exactly
as it was; the cache is mutated only when the write has completed
successfully. -/
theorem set_write_failure_leaves_cache (s : OptionStorage) (u : Nat) (o : Options)
    (e : String) :
    s.set u o (.error e) = (.error e, s)
    ∧ (s.set u o (.error e)).2.get u = s.get u
    ∧ (∀ w : Except String Unit, (s.set u o w).2 ≠ s → w = .ok ()) := by
  refine ⟨rfl, rfl, fun w hw => ?_⟩
  cases w with
  | error e2 => exact absurd rfl hw
  | ok u2 => cases u2; rfl

/-- Witness for C1 at a concrete store, user and failing write. -/
theorem set_write_failure_leaves_cache_witness :
    OptionStorage.set ⟨[]⟩ 7 DEFAULT_OPTIONS (.error "db down") = (.error "db down", ⟨[]⟩)
    ∧ (Except.ok () : Except String Unit) = .ok () :=
  ⟨(set_write_failure_leaves_cache ⟨[]⟩ 7 DEFAULT_OPTIONS "db down").1,
   (set_write_failure_leaves_cache ⟨[]⟩ 7 DEFAULT_OPTIONS "db down").2.2 (.ok ())
     (by decide)⟩

/-- C2: `get` is total, returns the cached value when present, returns the
value just written by a successful `set`, and returns the process-wide default
(a VoiceText options value with speaker Show, format Wav, no emotion,
emotion_level 2, pitch 100, speed 100, volume 100) for a user with no entry. -/
theorem get_cached_or_default (s : OptionStorage) (u : Nat) (o opts : Options) :
    (lookupAssoc u s.cache = some o → s.get u = o)
    ∧ (s.set u opts (.ok ())).2.get u = opts
    ∧ (lookupAssoc u s.cache = none → s.get u = DEFAULT_OPTIONS)
    ∧ DEFAULT_OPTIONS = .voiceTextOptions
        { speaker := .Show, format := .Wav, emotion := none, emotion_level := 2,
          pitch := 100, speed := 100, volume := 100 } := by
  refine ⟨fun h => ?_, ?_, fun h => ?_, rfl⟩
  · simp [OptionStorage.get, h]
  · show (lookupAssoc u (insertAssoc u opts s.cache)).getD DEFAULT_OPTIONS = opts
    rw [lookupAssoc_insert]
    rfl
  · simp [OptionStorage.get, h]

/-- Witness for C2: a cached user reads back its value, an absent user reads
the default. -/
theorem get_cached_or_default_witness :
    OptionStorage.get ⟨[(5, DEFAULT_OPTIONS)]⟩ 5 = DEFAULT_OPTIONS
    ∧ OptionStorage.get ⟨[]⟩ 9 = DEFAULT_OPTIONS :=
  ⟨(get_cached_or_default ⟨[(5, DEFAULT_OPTIONS)]⟩ 5 DEFAULT_OPTIONS DEFAULT_OPTIONS).1 rfl,
   (get_cached_or_default ⟨[]⟩ 9 DEFAULT_OPTIONS DEFAULT_OPTIONS).2.2.1 rfl⟩

/-- C3: every successfully built `VoiceTextOptions` satisfies
`emotion.is_some ⇒ speaker ≠ Show`, and a builder state with an emotion set
and speaker Show fails to finalize with exactly the documented message. -/
theorem emotion_requires_non_show :
    (∀ (b : VoiceTextOptionsBuilder) (o : VoiceTextOptions),
        b.build = .ok o → o.emotion.isSome → o.speaker ≠ .Show)
    ∧ (∀ (b : VoiceTextOptionsBuilder) (e : VoiceTextEmotion),
        b.emotion = some (some e) → b.speaker = some .Show →
        b.build = .error (.validationError
          "emotion can be used when speaker is haruka, hikari, takeru santa, or bear")) := by
  constructor
  · intro b o hb hem hshow
    unfold VoiceTextOptionsBuilder.build at hb
    cases hv : b.validate with
    | error m => rw [hv] at hb; cases hb
    | ok u =>
      rw [hv] at hb
      cases hsp : b.speaker with
      | none => rw [hsp] at hb; cases hb
      | some sp =>
        rw [hsp] at hb
        cases hb
        simp only at hem hshow
        subst hshow
        cases hemo : b.emotion with
        | none => rw [hemo] at hem; simp at hem
        | some emo =>
          rw [hemo] at hem
          cases emo with
          | none => simp at hem
          | some e2 =>
            have hrule : b.emotionRuleBroken = true := by
              unfold VoiceTextOptionsBuilder.emotionRuleBroken
              rw [hemo, hsp]
            unfold VoiceTextOptionsBuilder.validate at hv
            rw [if_pos hrule] at hv
            cases hv
  · intro b e he hs
    have hrule : b.emotionRuleBroken = true := by
      unfold VoiceTextOptionsBuilder.emotionRuleBroken
      rw [he, hs]
    unfold VoiceTextOptionsBuilder.build VoiceTextOptionsBuilder.validate
    rw [if_pos hrule]

/-- Witness for C3: speaker Show plus emotion Happiness fails with the
documented message, and a built value with an emotion has a non-Show
speaker. -/
theorem emotion_requires_non_show_witness :
    VoiceTextOptionsBuilder.build
        ⟨some .Show, none, some (some .Happiness), none, none, none, none⟩
      = .error (.validationError
          "emotion can be used when speaker is haruka, hikari, takeru santa, or bear")
    ∧ ({ speaker := .Haruka, format := .Wav, emotion := some .Happiness,
         emotion_level := 2, pitch := 100, speed := 100,
         volume := 100 } : VoiceTextOptions).speaker ≠ .Show :=
  ⟨emotion_requires_non_show.2
      ⟨some .Show, none, some (some .Happiness), none, none, none, none⟩ .Happiness rfl rfl,
   emotion_requires_non_show.1
      ⟨some .Haruka, none, some (some .Happiness), none, none, none, none⟩ _ rfl rfl⟩

set_option maxHeartbeats 2000000 in
/-- C5: strum text conversion round-trips for every variant of the four enums,
only canonical strings parse (so any unrecognized string fails), and every
VoiceVox speaker carries its fixed wire ID in 0–19, with 九州そら having
ID 16. -/
theorem enum_text_roundtrips :
    (∀ v : VoiceTextSpeaker, VoiceTextSpeaker.fromText v.toText = some v)
    ∧ (∀ (s : String) (v : VoiceTextSpeaker),
        VoiceTextSpeaker.fromText s = some v → v.toText = s)
    ∧ (∀ v : VoiceTextFormat, VoiceTextFormat.fromText v.toText = some v)
    ∧ (∀ (s : String) (v : VoiceTextFormat),
        VoiceTextFormat.fromText s = some v → v.toText = s)
    ∧ (∀ v : VoiceTextEmotion, VoiceTextEmotion.fromText v.toText = some v)
    ∧ (∀ (s : String) (v : VoiceTextEmotion),
        VoiceTextEmotion.fromText s = some v → v.toText = s)
    ∧ (∀ v : VoiceVoxSpeaker, VoiceVoxSpeaker.fromText v.toText = some v)
    ∧ (∀ (s : String) (v : VoiceVoxSpeaker),
        VoiceVoxSpeaker.fromText s = some v → v.toText = s)
    ∧ (∀ v : VoiceVoxSpeaker, v.toId ≤ 19)
    ∧ VoiceVoxSpeaker.toId .«九州そら» = 16 := by
  refine ⟨fun v => by cases v <;> rfl, fun s v h => ?_,
          fun v => by cases v <;> rfl, fun s v h => ?_,
          fun v => by cases v <;> rfl, fun s v h => ?_,
          fun v => by cases v <;> rfl, fun s v h => ?_,
          fun v => by cases v <;> decide, rfl⟩
  · unfold VoiceTextSpeaker.fromText at h
    split_ifs at h <;> cases h <;> simp_all [VoiceTextSpeaker.toText]
  · unfold VoiceTextFormat.fromText at h
    split_ifs at h <;> cases h <;> simp_all [VoiceTextFormat.toText]
  · unfold VoiceTextEmotion.fromText at h
    split_ifs at h <;> cases h <;> simp_all [VoiceTextEmotion.toText]
  · -- VoiceVox speaker: peel the 20-way if chain one literal at a time
    by_cases h1 : s = "四国めたん"
    · rw [VoiceVoxSpeaker.fromText, if_pos h1] at h
      cases h
      exact h1.symm
    by_cases h2 : s = "四国めたんあまあま"
    · rw [VoiceVoxSpeaker.fromText, if_neg h1, if_pos h2] at h
      cases h
      exact h2.symm
    by_cases h3 : s = "四国めたんツンツン"
    · rw [VoiceVoxSpeaker.fromText, if_neg h1, if_neg h2, if_pos h3] at h
      cases h
      exact h3.symm
    by_cases h4 : s = "四国めたんセクシー"
    · rw [VoiceVoxSpeaker.fromText, if_neg h1, if_neg h2, if_neg h3, if_pos h4] at h
      cases h
      exact h4.symm
    by_cases h5 : s = "ずんだもん"
    · rw [VoiceVoxSpeaker.fromText, if_neg h1, if_neg h2, if_neg h3, if_neg h4, if_pos h5] at h
      cases h
      exact h5.symm
    by_cases h6 : s = "ずんだもんあまあま"
    · rw [VoiceVoxSpeaker.fromText, if_neg h1, if_neg h2, if_neg h3, if_neg h4, if_neg h5, if_pos h6] at h
      cases h
      exact h6.symm
    by_cases h7 : s = "ずんだもんツンツン"
    · rw [VoiceVoxSpeaker.fromText, if_neg h1, if_neg h2, if_neg h3, if_neg h4, if_neg h5, if_neg h6, if_pos h7] at h
      cases h
      exact h7.symm
    by_cases h8 : s = "ずんだもんセクシー"
    · rw [VoiceVoxSpeaker.fromText, if_neg h1, if_neg h2, if_neg h3, if_neg h4, if_neg h5, if_neg h6, if_neg h7, if_pos h8] at h
      cases h
      exact h8.symm
    by_cases h9 : s = "春日部つむぎ"
    · rw [VoiceVoxSpeaker.fromText, if_neg h1, if_neg h2, if_neg h3, if_neg h4, if_neg h5, if_neg h6, if_neg h7, if_neg h8, if_pos h9] at h
      cases h
      exact h9.symm
    by_cases h10 : s = "雨晴はう"
    · rw [VoiceVoxSpeaker.fromText, if_neg h1, if_neg h2, if_neg h3, if_neg h4, if_neg h5, if_neg h6, if_neg h7, if_neg h8, if_neg h9, if_pos h10] at h
      cases h
      exact h10.symm
    by_cases h11 : s = "波音リツ"
    · rw [VoiceVoxSpeaker.fromText, if_neg h1, if_neg h2, if_neg h3, if_neg h4, if_neg h5, if_neg h6, if_neg h7, if_neg h8, if_neg h9, if_neg h10, if_pos h11] at h
      cases h
      exact h11.symm
    by_cases h12 : s = "玄野武宏"
    · rw [VoiceVoxSpeaker.fromText, if_neg h1, if_neg h2, if_neg h3, if_neg h4, if_neg h5, if_neg h6, if_neg h7, if_neg h8, if_neg h9, if_neg h10, if_neg h11, if_pos h12] at h
      cases h
      exact h12.symm
    by_cases h13 : s = "白上虎太郎"
    · rw [VoiceVoxSpeaker.fromText, if_neg h1, if_neg h2, if_neg h3, if_neg h4, if_neg h5, if_neg h6, if_neg h7, if_neg h8, if_neg h9, if_neg h10, if_neg h11, if_neg h12, if_pos h13] at h
      cases h
      exact h13.symm
    by_cases h14 : s = "青山龍星"
    · rw [VoiceVoxSpeaker.fromText, if_neg h1, if_neg h2, if_neg h3, if_neg h4, if_neg h5, if_neg h6, if_neg h7, if_neg h8, if_neg h9, if_neg h10, if_neg h11, if_neg h12, if_neg h13, if_pos h14] at h
      cases h
      exact h14.symm
    by_cases h15 : s = "冥鳴ひまり"
    · rw [VoiceVoxSpeaker.fromText, if_neg h1, if_neg h2, if_neg h3, if_neg h4, if_neg h5, if_neg h6, if_neg h7, if_neg h8, if_neg h9, if_neg h10, if_neg h11, if_neg h12, if_neg h13, if_neg h14, if_pos h15] at h
      cases h
      exact h15.symm
    by_cases h16 : s = "九州そら"
    · rw [VoiceVoxSpeaker.fromText, if_neg h1, if_neg h2, if_neg h3, if_neg h4, if_neg h5, if_neg h6, if_neg h7, if_neg h8, if_neg h9, if_neg h10, if_neg h11, if_neg h12, if_neg h13, if_neg h14, if_neg h15, if_pos h16] at h
      cases h
      exact h16.symm
    by_cases h17 : s = "九州そらあまあま"
    · rw [VoiceVoxSpeaker.fromText, if_neg h1, if_neg h2, if_neg h3, if_neg h4, if_neg h5, if_neg h6, if_neg h7, if_neg h8, if_neg h9, if_neg h10, if_neg h11, if_neg h12, if_neg h13, if_neg h14, if_neg h15, if_neg h16, if_pos h17] at h
      cases h
      exact h17.symm
    by_cases h18 : s = "九州そらツンツン"
    · rw [VoiceVoxSpeaker.fromText, if_neg h1, if_neg h2, if_neg h3, if_neg h4, if_neg h5, if_neg h6, if_neg h7, if_neg h8, if_neg h9, if_neg h10, if_neg h11, if_neg h12, if_neg h13, if_neg h14, if_neg h15, if_neg h16, if_neg h17, if_pos h18] at h
      cases h
      exact h18.symm
    by_cases h19 : s = "九州そらセクシー"
    · rw [VoiceVoxSpeaker.fromText, if_neg h1, if_neg h2, if_neg h3, if_neg h4, if_neg h5, if_neg h6, if_neg h7, if_neg h8, if_neg h9, if_neg h10, if_neg h11, if_neg h12, if_neg h13, if_neg h14, if_neg h15, if_neg h16, if_neg h17, if_neg h18, if_pos h19] at h
      cases h
      exact h19.symm
    by_cases h20 : s = "九州そらささやき"
    · rw [VoiceVoxSpeaker.fromText, if_neg h1, if_neg h2, if_neg h3, if_neg h4, if_neg h5, if_neg h6, if_neg h7, if_neg h8, if_neg h9, if_neg h10, if_neg h11, if_neg h12, if_neg h13, if_neg h14, if_neg h15, if_neg h16, if_neg h17, if_neg h18, if_neg h19, if_pos h20] at h
      cases h
      exact h20.symm
    rw [VoiceVoxSpeaker.fromText, if_neg h1, if_neg h2, if_neg h3, if_neg h4, if_neg h5, if_neg h6, if_neg h7, if_neg h8, if_neg h9, if_neg h10, if_neg h11, if_neg h12, if_neg h13, if_neg h14, if_neg h15, if_neg h16, if_neg h17, if_neg h18, if_neg h19, if_neg h20] at h
    cases h

/-- Witness for C5 at concrete strings. -/
theorem enum_text_roundtrips_witness :
    VoiceTextSpeaker.toText .Show = "show"
    ∧ VoiceVoxSpeaker.toText .«九州そら» = "九州そら" :=
  ⟨enum_text_roundtrips.2.1 "show" .Show rfl,
   enum_text_roundtrips.2.2.2.2.2.2.2.1 "九州そら" .«九州そら» rfl⟩

/-- C7 counterexample: the claim says every casing of an engine name parses,
but the strum-derived parse is case-sensitive, so "VoiceText" fails. -/
theorem engine_mixed_case_fails : Engine.fromText "VoiceText" = none := rfl

/-- C7 amended: engine parsing is case-sensitive; exactly the lowercase
canonical forms parse, and the canonical text of each variant is lowercase. -/
theorem engine_parse_case_sensitive :
    Engine.toText .VoiceText = "voicetext" ∧ Engine.toText .VoiceVox = "voicevox"
    ∧ Engine.fromText "voicetext" = some .VoiceText
    ∧ Engine.fromText "voicevox" = some .VoiceVox
    ∧ (∀ (s : String) (e : Engine), Engine.fromText s = some e → s = e.toText) := by
  refine ⟨rfl, rfl, rfl, rfl, fun s e h => ?_⟩
  unfold Engine.fromText at h
  split_ifs at h <;> cases h <;> simp_all [Engine.toText]

/-- Witness for the amended C7 claim at the canonical lowercase string. -/
theorem engine_parse_case_sensitive_witness : "voicetext" = Engine.toText .VoiceText :=
  engine_parse_case_sensitive.2.2.2.2 "voicetext" .VoiceText rfl

/-! ## Claim-side validation predicates (C4)

These spell the validation rules of the claim directly (spec wording), to be
compared against the source-translated `validate`. -/

def vtPairingOk (b : VoiceTextOptionsBuilder) : Prop :=
  ∀ e, b.emotion = some (some e) → b.speaker ≠ some VoiceTextSpeaker.Show

def vtLevelOk (b : VoiceTextOptionsBuilder) : Prop :=
  ∀ l, b.emotion_level = some l → 1 ≤ l ∧ l ≤ 4

def vtPitchOk (b : VoiceTextOptionsBuilder) : Prop :=
  ∀ p, b.pitch = some p → 50 ≤ p ∧ p ≤ 200

def vtSpeedOk (b : VoiceTextOptionsBuilder) : Prop :=
  ∀ v, b.speed = some v → 50 ≤ v ∧ v ≤ 400

def vtVolumeOk (b : VoiceTextOptionsBuilder) : Prop :=
  ∀ v, b.volume = some v → 50 ≤ v ∧ v ≤ 200

theorem emotionRuleBroken_iff (b : VoiceTextOptionsBuilder) :
    b.emotionRuleBroken = true ↔ ¬ vtPairingOk b := by
  unfold VoiceTextOptionsBuilder.emotionRuleBroken vtPairingOk
  cases he : b.emotion with
  | none => simp
  | some eo =>
    cases eo with
    | none => simp
    | some e2 =>
      cases hs : b.speaker with
      | none => simp
      | some sp => cases sp <;> simp

theorem emotionLevelBad_iff (b : VoiceTextOptionsBuilder) :
    b.emotionLevelBad = true ↔ ¬ vtLevelOk b := by
  unfold VoiceTextOptionsBuilder.emotionLevelBad vtLevelOk
  cases hl : b.emotion_level with
  | none => simp
  | some l =>
    simp only [decide_eq_true_eq, Option.some.injEq]
    constructor
    · intro hor hall
      have := hall l rfl
      omega
    · intro hneg
      by_contra hor
      exact hneg fun l2 hl2 => by subst hl2; omega

theorem pitchBad_iff (b : VoiceTextOptionsBuilder) :
    b.pitchBad = true ↔ ¬ vtPitchOk b := by
  unfold VoiceTextOptionsBuilder.pitchBad vtPitchOk
  cases hl : b.pitch with
  | none => simp
  | some l =>
    simp only [decide_eq_true_eq, Option.some.injEq]
    constructor
    · intro hor hall
      have := hall l rfl
      omega
    · intro hneg
      by_contra hor
      exact hneg fun l2 hl2 => by subst hl2; omega

theorem speedBad_iff (b : VoiceTextOptionsBuilder) :
    b.speedBad = true ↔ ¬ vtSpeedOk b := by
  unfold VoiceTextOptionsBuilder.speedBad vtSpeedOk
  cases hl : b.speed with
  | none => simp
  | some l =>
    simp only [decide_eq_true_eq, Option.some.injEq]
    constructor
    · intro hor hall
      have := hall l rfl
      omega
    · intro hneg
      by_contra hor
      exact hneg fun l2 hl2 => by subst hl2; omega

theorem volumeBad_iff (b : VoiceTextOptionsBuilder) :
    b.volumeBad = true ↔ ¬ vtVolumeOk b := by
  unfold VoiceTextOptionsBuilder.volumeBad vtVolumeOk
  cases hl : b.volume with
  | none => simp
  | some l =>
    simp only [decide_eq_true_eq, Option.some.injEq]
    constructor
    · intro hor hall
      have := hall l rfl
      omega
    · intro hneg
      by_contra hor
      exact hneg fun l2 hl2 => by subst hl2; omega

theorem validate_ok_iff (b : VoiceTextOptionsBuilder) :
    b.validate = .ok () ↔
      (vtPairingOk b ∧ vtLevelOk b ∧ vtPitchOk b ∧ vtSpeedOk b ∧ vtVolumeOk b) := by
  constructor
  · intro h
    unfold VoiceTextOptionsBuilder.validate at h
    split_ifs at h with h1 h2 h3 h4 h5
    exact ⟨of_not_not ((not_iff_not.mpr (emotionRuleBroken_iff b)).mp h1),
      of_not_not ((not_iff_not.mpr (emotionLevelBad_iff b)).mp h2),
      of_not_not ((not_iff_not.mpr (pitchBad_iff b)).mp h3),
      of_not_not ((not_iff_not.mpr (speedBad_iff b)).mp h4),
      of_not_not ((not_iff_not.mpr (volumeBad_iff b)).mp h5)⟩
  · rintro ⟨hp, hl, hpi, hspd, hvol⟩
    unfold VoiceTextOptionsBuilder.validate
    rw [if_neg (fun hflag => (emotionRuleBroken_iff b).mp hflag hp),
      if_neg (fun hflag => (emotionLevelBad_iff b).mp hflag hl),
      if_neg (fun hflag => (pitchBad_iff b).mp hflag hpi),
      if_neg (fun hflag => (speedBad_iff b).mp hflag hspd),
      if_neg (fun hflag => (volumeBad_iff b).mp hflag hvol)]

/-- C4 counterexample: the all-unset builder state violates none of the five
validation rules (its `validate` succeeds), yet finalization still fails,
with the uninitialized-field error for the required `speaker`. -/
theorem build_fails_without_rule_violation :
    VoiceTextOptionsBuilder.build ⟨none, none, none, none, none, none, none⟩
      = .error (.uninitializedField "speaker")
    ∧ VoiceTextOptionsBuilder.validate ⟨none, none, none, none, none, none, none⟩
      = .ok () :=
  ⟨rfl, rfl⟩

/-- C4 amended: finalization fails iff a validation rule is violated or the
required `speaker` field is unset; a violated rule is reported with the message of the first
violated rule in scan order (emotion/speaker pairing, emotion_level,
pitch, speed, volume — with boundary values succeeding), and when all rules
hold but `speaker` is unset the failure is the uninitialized-field error. -/
theorem build_error_first_rule (b : VoiceTextOptionsBuilder) :
    ((∃ o, b.build = .ok o) ↔
      (vtPairingOk b ∧ vtLevelOk b ∧ vtPitchOk b ∧ vtSpeedOk b ∧ vtVolumeOk b
        ∧ b.speaker.isSome = true))
    ∧ (¬ vtPairingOk b → b.build = .error (.validationError
        "emotion can be used when speaker is haruka, hikari, takeru santa, or bear"))
    ∧ (vtPairingOk b → ¬ vtLevelOk b → b.build = .error (.validationError
        "Bad emotion_level, must be 1 <= emotion_level <= 4"))
    ∧ (vtPairingOk b → vtLevelOk b → ¬ vtPitchOk b → b.build = .error (.validationError
        "Bad pitch, must be 50 <= pitch <= 200"))
    ∧ (vtPairingOk b → vtLevelOk b → vtPitchOk b → ¬ vtSpeedOk b →
        b.build = .error (.validationError "Bad speed, must be 50 <= speed <= 400"))
    ∧ (vtPairingOk b → vtLevelOk b → vtPitchOk b → vtSpeedOk b → ¬ vtVolumeOk b →
        b.build = .error (.validationError "Bad volume, must be 50 <= volume <= 200"))
    ∧ (vtPairingOk b → vtLevelOk b → vtPitchOk b → vtSpeedOk b → vtVolumeOk b →
        b.speaker = none → b.build = .error (.uninitializedField "speaker")) := by
  refine ⟨⟨?_, ?_⟩, ?_, ?_, ?_, ?_, ?_, ?_⟩
  · rintro ⟨o, ho⟩
    unfold VoiceTextOptionsBuilder.build at ho
    cases hv : b.validate with
    | error m => rw [hv] at ho; cases ho
    | ok u =>
      cases u
      rw [hv] at ho
      cases hsp : b.speaker with
      | none => rw [hsp] at ho; cases ho
      | some sp =>
        have hops := (validate_ok_iff b).mp hv
        exact ⟨hops.1, hops.2.1, hops.2.2.1, hops.2.2.2.1, hops.2.2.2.2, rfl⟩
  · rintro ⟨hp, hl, hpi, hspd, hvol, hs⟩
    cases hsp : b.speaker with
    | none => rw [hsp] at hs; cases hs
    | some sp =>
      refine ⟨{ speaker := sp, format := b.format.getD .Wav, emotion := b.emotion.getD none,
                emotion_level := b.emotion_level.getD 2, pitch := b.pitch.getD 100,
                speed := b.speed.getD 100, volume := b.volume.getD 100 }, ?_⟩
      unfold VoiceTextOptionsBuilder.build
      rw [(validate_ok_iff b).mpr ⟨hp, hl, hpi, hspd, hvol⟩, hsp]
  · intro hnp
    unfold VoiceTextOptionsBuilder.build VoiceTextOptionsBuilder.validate
    rw [if_pos ((emotionRuleBroken_iff b).mpr hnp)]
  · intro hp hnl
    unfold VoiceTextOptionsBuilder.build VoiceTextOptionsBuilder.validate
    rw [if_neg (fun hflag => (emotionRuleBroken_iff b).mp hflag hp),
      if_pos ((emotionLevelBad_iff b).mpr hnl)]
  · intro hp hl hnpi
    unfold VoiceTextOptionsBuilder.build VoiceTextOptionsBuilder.validate
    rw [if_neg (fun hflag => (emotionRuleBroken_iff b).mp hflag hp),
      if_neg (fun hflag => (emotionLevelBad_iff b).mp hflag hl),
      if_pos ((pitchBad_iff b).mpr hnpi)]
  · intro hp hl hpi hnspd
    unfold VoiceTextOptionsBuilder.build VoiceTextOptionsBuilder.validate
    rw [if_neg (fun hflag => (emotionRuleBroken_iff b).mp hflag hp),
      if_neg (fun hflag => (emotionLevelBad_iff b).mp hflag hl),
      if_neg (fun hflag => (pitchBad_iff b).mp hflag hpi),
      if_pos ((speedBad_iff b).mpr hnspd)]
  · intro hp hl hpi hspd hnvol
    unfold VoiceTextOptionsBuilder.build VoiceTextOptionsBuilder.validate
    rw [if_neg (fun hflag => (emotionRuleBroken_iff b).mp hflag hp),
      if_neg (fun hflag => (emotionLevelBad_iff b).mp hflag hl),
      if_neg (fun hflag => (pitchBad_iff b).mp hflag hpi),
      if_neg (fun hflag => (speedBad_iff b).mp hflag hspd),
      if_pos ((volumeBad_iff b).mpr hnvol)]
  · intro hp hl hpi hspd hvol hnone
    unfold VoiceTextOptionsBuilder.build
    rw [(validate_ok_iff b).mpr ⟨hp, hl, hpi, hspd, hvol⟩, hnone]

/-- Witness for the amended C4 claim: a boundary-valued builder succeeds, and a
builder whose only violation is emotion_level 9 fails with the message of that
rule. -/
theorem build_error_first_rule_witness :
    (∃ o, VoiceTextOptionsBuilder.build
        ⟨some .Haruka, none, none, some 4, some 50, some 400, some 200⟩ = .ok o)
    ∧ VoiceTextOptionsBuilder.build ⟨some .Show, none, none, some 9, none, none, none⟩
        = .error (.validationError "Bad emotion_level, must be 1 <= emotion_level <= 4") :=
  ⟨(build_error_first_rule ⟨some .Haruka, none, none, some 4, some 50, some 400, some 200⟩).1.mpr
      ⟨fun e he => (by cases he), fun l hl => (by cases hl; omega),
       fun p hp => (by cases hp; omega), fun v hv => (by cases hv; omega),
       fun v hv2 => (by cases hv2; omega), rfl⟩,
   (build_error_first_rule ⟨some .Show, none, none, some 9, none, none, none⟩).2.2.1
      (fun e he => (by cases he)) (fun hall => (by have := hall 9 rfl; omega))⟩

/-- C6 counterexample: the claim says a token with an empty key fails with a
parse error, but the build of ["speaker=show", "=bar"] succeeds — the empty
key falls into the unrecognized-key arm and is silently skipped. -/
theorem empty_key_token_not_an_error :
    build_voice_text_options ["speaker=show", "=bar"]
      = .ok { speaker := .Show, format := .Wav, emotion := none, emotion_level := 2,
              pitch := 100, speed := 100, volume := 100 } := rfl

/-- C6 amended: only a token with no `=` at all fails with the fixed
"key=value" context message (which does not name the token); a token with an
empty key is silently ignored; a token with an empty value fails only when its
key is recognized, and then with the value-parse error of that key. -/
theorem malformed_token_behaviour :
    (∀ (pre : List String) (t : String) (post : List String) (b : VoiceTextOptionsBuilder),
      '=' ∉ t.data → applyVT VoiceTextOptionsBuilder.default pre = .ok b →
      build_voice_text_options (pre ++ t :: post) = .error .formError)
    ∧ (∀ (pre : List String) (t : String) (post : List String) (b : VoiceVoxOptionsBuilder),
      '=' ∉ t.data → applyVV VoiceVoxOptionsBuilder.default pre = .ok b →
      build_voice_vox_options (pre ++ t :: post) = .error .formError)
    ∧ (∀ (b : VoiceTextOptionsBuilder) (v : String), stepVT b ("=" ++ v) = .ok b)
    ∧ (∀ b : VoiceTextOptionsBuilder, stepVT b "pitch=" = .error (.intError .empty))
    ∧ (∀ b : VoiceVoxOptionsBuilder, stepVV b "pitch=" = .error .floatError) := by
  refine ⟨?_, ?_, ?_, fun b => rfl, fun b => rfl⟩
  · intro pre t post b hne hpre
    have hstep : applyVT b (t :: post) = .error .formError := by
      simp only [applyVT]
      rw [stepVT_no_eq b t hne]
    unfold build_voice_text_options
    rw [applyVT_append, hpre]
    dsimp only
    rw [hstep]
  · intro pre t post b hne hpre
    have hstep : applyVV b (t :: post) = .error .formError := by
      simp only [applyVV]
      rw [stepVV_no_eq b t hne]
    unfold build_voice_vox_options
    rw [applyVV_append, hpre]
    dsimp only
    rw [hstep]
  · intro b v
    obtain ⟨vcs⟩ := v
    have hd : ("=" ++ String.mk vcs).data = '=' :: vcs := by
      simp [String.data_append]
    have hsp : splitEq ('=' :: vcs) = [] :: splitEq vcs := by
      have := splitEq_append [] vcs (by simp)
      simpa using this
    have hmem : '=' ∈ ("=" ++ String.mk vcs).data := by
      rw [hd]
      exact List.mem_cons_self _ _
    have hkey : (parseKV ("=" ++ String.mk vcs)).1 = "" := by
      unfold parseKV
      rw [hd, hsp]
    refine stepVT_unknown b _ hmem ?_
    rw [hkey]
    decide

/-- Witness for the amended C6 claim at concrete tokens. -/
theorem malformed_token_behaviour_witness :
    build_voice_text_options ["abc"] = .error .formError
    ∧ stepVT VoiceTextOptionsBuilder.default "pitch=" = .error (.intError .empty) :=
  ⟨malformed_token_behaviour.1 [] "abc" [] VoiceTextOptionsBuilder.default (by decide) rfl,
   malformed_token_behaviour.2.2.2.1 VoiceTextOptionsBuilder.default⟩

/-- C8: a well-formed `key=value` token whose key is not recognized by the
chosen engine is silently ignored, and the build result is identical to that
of the same sequence with the token removed (both engines). -/
theorem unknown_key_ignored :
    (∀ (pre post : List String) (t : String),
      '=' ∈ t.data → (parseKV t).1 ∉ vtKeys →
      build_voice_text_options (pre ++ t :: post) = build_voice_text_options (pre ++ post))
    ∧ (∀ (pre post : List String) (t : String),
      '=' ∈ t.data → (parseKV t).1 ∉ vvKeys →
      build_voice_vox_options (pre ++ t :: post) = build_voice_vox_options (pre ++ post)) := by
  constructor
  · intro pre post t hmem hk
    unfold build_voice_text_options
    rw [applyVT_append, applyVT_append]
    cases hpre : applyVT VoiceTextOptionsBuilder.default pre with
    | error e => rfl
    | ok b =>
      dsimp only
      have hstep : applyVT b (t :: post) = applyVT b post := by
        simp only [applyVT, stepVT_unknown b t hmem hk]
      rw [hstep]
  · intro pre post t hmem hk
    unfold build_voice_vox_options
    rw [applyVV_append, applyVV_append]
    cases hpre : applyVV VoiceVoxOptionsBuilder.default pre with
    | error e => rfl
    | ok b =>
      dsimp only
      have hstep : applyVV b (t :: post) = applyVV b post := by
        simp only [applyVV, stepVV_unknown b t hmem hk]
      rw [hstep]

/-- Witness for C8: `foo=bar` is dropped from a VoiceText build and
`formato=wav` from a VoiceVox build, leaving the results unchanged. -/
theorem unknown_key_ignored_witness :
    build_voice_text_options ["speaker=show", "foo=bar"]
      = build_voice_text_options ["speaker=show"]
    ∧ build_voice_vox_options ["formato=wav", "speaker=ずんだもん"]
      = build_voice_vox_options ["speaker=ずんだもん"] :=
  ⟨unknown_key_ignored.1 ["speaker=show"] [] "foo=bar" (by decide) (by decide),
   unknown_key_ignored.2 [] ["speaker=ずんだもん"] "formato=wav" (by decide) (by decide)⟩

/-- C10: when a recognized key occurs more than once with parseable values,
the earlier occurrence has no effect on the built schema — removing it leaves
the build result unchanged, so the last occurrence wins (both engines). -/
theorem last_occurrence_wins :
    (∀ (xs ys : List String) (k v : String),
      k ∈ vtKeys →
      (∃ b2, stepVT VoiceTextOptionsBuilder.default (k ++ "=" ++ v) = .ok b2) →
      (∃ t2 ∈ ys, (parseKV t2).1 = k) →
      build_voice_text_options (xs ++ (k ++ "=" ++ v) :: ys)
        = build_voice_text_options (xs ++ ys))
    ∧ (∀ (xs ys : List String) (k v : String),
      k ∈ vvKeys →
      (∃ b2, stepVV VoiceVoxOptionsBuilder.default (k ++ "=" ++ v) = .ok b2) →
      (∃ t2 ∈ ys, (parseKV t2).1 = k) →
      build_voice_vox_options (xs ++ (k ++ "=" ++ v) :: ys)
        = build_voice_vox_options (xs ++ ys)) := by
  constructor
  · intro xs ys k v hk hok hex
    obtain ⟨b0, hb0⟩ := hok
    have hkeq : '=' ∉ k.data := by fin_cases hk <;> decide
    have hkey : (parseKV (k ++ "=" ++ v)).1 = k := parseKV_composed k v hkeq
    unfold build_voice_text_options
    rw [applyVT_append, applyVT_append]
    cases hxs : applyVT VoiceTextOptionsBuilder.default xs with
    | error e => rfl
    | ok b =>
      dsimp only
      cases hsb : stepVT b (k ++ "=" ++ v) with
      | error e2 =>
        have hcontra := stepVT_error_congr b VoiceTextOptionsBuilder.default _ e2 hsb
        rw [hb0] at hcontra
        cases hcontra
      | ok c =>
        have hag : vtAgreeExcept k b c := by
          have := stepVT_self_agree _ b c hsb
          rwa [hkey] at this
        have hys : applyVT c ys = applyVT b ys :=
          applyVT_agree k ys c b (vtAgree_symm k b c hag) hex
        have hstep : applyVT b ((k ++ "=" ++ v) :: ys) = applyVT b ys := by
          simp only [applyVT, hsb]
          exact hys
        rw [hstep]
  · intro xs ys k v hk hok hex
    obtain ⟨b0, hb0⟩ := hok
    have hkeq : '=' ∉ k.data := by fin_cases hk <;> decide
    have hkey : (parseKV (k ++ "=" ++ v)).1 = k := parseKV_composed k v hkeq
    unfold build_voice_vox_options
    rw [applyVV_append, applyVV_append]
    cases hxs : applyVV VoiceVoxOptionsBuilder.default xs with
    | error e => rfl
    | ok b =>
      dsimp only
      cases hsb : stepVV b (k ++ "=" ++ v) with
      | error e2 =>
        have hcontra := stepVV_error_congr b VoiceVoxOptionsBuilder.default _ e2 hsb
        rw [hb0] at hcontra
        cases hcontra
      | ok c =>
        have hag : vvAgreeExcept k b c := by
          have := stepVV_self_agree _ b c hsb
          rwa [hkey] at this
        have hys : applyVV c ys = applyVV b ys :=
          applyVV_agree k ys c b (vvAgree_symm k b c hag) hex
        have hstep : applyVV b ((k ++ "=" ++ v) :: ys) = applyVV b ys := by
          simp only [applyVV, hsb]
          exact hys
        rw [hstep]

/-- Witness for C10: a duplicated pitch key (VoiceText) and a duplicated speed
key (VoiceVox) collapse to the later occurrence. -/
theorem last_occurrence_wins_witness :
    build_voice_text_options ["pitch" ++ "=" ++ "60", "pitch=70"]
      = build_voice_text_options ["pitch=70"]
    ∧ build_voice_vox_options ["speed" ++ "=" ++ "2", "speed=3"]
      = build_voice_vox_options ["speed=3"] :=
  ⟨last_occurrence_wins.1 [] ["pitch=70"] "pitch" "60" (by decide) ⟨_, rfl⟩
      ⟨"pitch=70", by decide⟩,
   last_occurrence_wins.2 [] ["speed=3"] "speed" "2" (by decide) ⟨_, rfl⟩
      ⟨"speed=3", by decide⟩⟩

/-! ## Connect-time decoding lemmas (C9) -/

theorem loadCacheAux_isSome :
    ∀ (rows : List OptionsRow) (acc : List (Nat × Options)),
    (loadCacheAux acc rows).isSome
      = rows.all fun r => ((r.options).bind decodeOptions).isSome
  | [], acc => by simp [loadCacheAux]
  | r :: rest, acc => by
    simp only [List.all_cons]
    cases ho : r.options with
    | none => simp [loadCacheAux, ho]
    | some j =>
      cases hd : decodeOptions j with
      | none => simp [loadCacheAux, ho, hd]
      | some o =>
        simp [loadCacheAux, ho, hd,
          loadCacheAux_isSome rest (insertAssoc r.user_id o acc)]

theorem lookupAssoc_insert_mono (k k2 : Nat) (v : Options) :
    ∀ l : List (Nat × Options),
    (lookupAssoc k l).isSome = true →
    (lookupAssoc k (insertAssoc k2 v l)).isSome = true
  | [], h => by simp [lookupAssoc] at h
  | (k3, v3) :: rest, h => by
    by_cases h32 : k3 = k2
    · rw [insertAssoc, if_pos h32]
      by_cases hk : k2 = k
      · simp [lookupAssoc, hk]
      · rw [lookupAssoc, if_neg hk]
        rw [lookupAssoc] at h
        rw [if_neg (h32 ▸ hk)] at h
        exact h
    · rw [insertAssoc, if_neg h32]
      by_cases hk : k3 = k
      · simp [lookupAssoc, hk]
      · rw [lookupAssoc, if_neg hk]
        rw [lookupAssoc, if_neg hk] at h
        exact lookupAssoc_insert_mono k k2 v rest h

theorem loadCacheAux_preserve (k : Nat) :
    ∀ (rows : List OptionsRow) (acc c : List (Nat × Options)),
    loadCacheAux acc rows = some c →
    (lookupAssoc k acc).isSome = true → (lookupAssoc k c).isSome = true
  | [], acc, c, h, hl => by cases h; exact hl
  | r :: rest, acc, c, h, hl => by
    rw [loadCacheAux] at h
    cases ho : r.options with
    | none => rw [ho] at h; cases h
    | some j =>
      rw [ho] at h
      dsimp only at h
      cases hd : decodeOptions j with
      | none => rw [hd] at h; cases h
      | some o =>
        rw [hd] at h
        exact loadCacheAux_preserve k rest _ c h
          (lookupAssoc_insert_mono k r.user_id o acc hl)

theorem loadCacheAux_mem :
    ∀ (rows : List OptionsRow) (acc c : List (Nat × Options)) (r : OptionsRow),
    loadCacheAux acc rows = some c → r ∈ rows →
    (lookupAssoc r.user_id c).isSome = true
  | [], _, _, r, _, hmem => absurd hmem (by simp)
  | r2 :: rest, acc, c, r, h, hmem => by
    rw [loadCacheAux] at h
    cases ho : r2.options with
    | none => rw [ho] at h; cases h
    | some j =>
      rw [ho] at h
      dsimp only at h
      cases hd : decodeOptions j with
      | none => rw [hd] at h; cases h
      | some o =>
        rw [hd] at h
        rcases List.mem_cons.mp hmem with heq | hmem2
        · subst heq
          refine loadCacheAux_preserve r.user_id rest _ c h ?_
          rw [lookupAssoc_insert]
          rfl
        · exact loadCacheAux_mem rest _ c r h hmem2

/-- A stored row whose JSON decodes to the default VoiceText options, used as
the concrete input of the C9 witness. -/
def sampleGoodRow : OptionsRow :=
  ⟨3, some (Json.obj [("VoiceTextOptions", Json.obj
    [("speaker", Json.str "Show"), ("format", Json.str "Wav"),
     ("emotion", Json.null), ("emotion_level", Json.num 2),
     ("pitch", Json.num 100), ("speed", Json.num 100),
     ("volume", Json.num 100)])])⟩

/-- Discriminator for the returned-error outcome of `connect`. -/
def ConnectOutcome.isErr : ConnectOutcome → Bool
  | .err _ => true
  | _ => false

/-- C9 counterexample: a fetched row whose stored value cannot be deserialized
makes `connect` abort the process (both `unwrap()` calls panic); no error value
is returned to the caller, contradicting the claimed "surfaced to the caller as
a returned error". -/
theorem connect_bad_row_crashes :
    OptionStorage.connect (.ok ()) (.ok [⟨1, some (Json.str "garbage")⟩])
      = .crashed
    ∧ (OptionStorage.connect (.ok ())
        (.ok [⟨1, some (Json.str "garbage")⟩])).isErr = false :=
  ⟨rfl, rfl⟩

/-- C9 amended: `connect` returns the connection or query error when the
backing store is unreachable; when every fetched row holds a decodable non-NULL
value it returns a ready store whose cache holds an entry for the user of every fetched
row; but a row that is NULL or fails to decode aborts the process
(panic) instead of returning a decode error.  In no case is a partially loaded
store handed out. -/
theorem connect_characterization :
    (∀ (e : String) (fetch : Except String (List OptionsRow)),
        OptionStorage.connect (.error e) fetch = .err e)
    ∧ (∀ e : String, OptionStorage.connect (.ok ()) (.error e) = .err e)
    ∧ (∀ rows : List OptionsRow,
        (∃ s, OptionStorage.connect (.ok ()) (.ok rows) = .ok s) ↔
          rows.all (fun r => ((r.options).bind decodeOptions).isSome) = true)
    ∧ (∀ rows : List OptionsRow,
        OptionStorage.connect (.ok ()) (.ok rows) = .crashed ↔
          ¬ rows.all (fun r => ((r.options).bind decodeOptions).isSome) = true)
    ∧ (∀ (rows : List OptionsRow) (s : OptionStorage),
        OptionStorage.connect (.ok ()) (.ok rows) = .ok s →
        ∀ r ∈ rows, (lookupAssoc r.user_id s.cache).isSome = true) := by
  refine ⟨fun e fetch => rfl, fun e => rfl, ?_, ?_, ?_⟩
  · intro rows
    unfold OptionStorage.connect
    rw [← loadCacheAux_isSome rows []]
    cases hl : loadCacheAux [] rows <;> simp [hl]
  · intro rows
    unfold OptionStorage.connect
    rw [← loadCacheAux_isSome rows []]
    cases hl : loadCacheAux [] rows <;> simp [hl]
  · intro rows s h r hmem
    unfold OptionStorage.connect at h
    dsimp only at h
    cases hl : loadCacheAux [] rows with
    | none => rw [hl] at h; cases h
    | some c =>
      rw [hl] at h
      cases h
      exact loadCacheAux_mem rows [] c r hl hmem

/-- Witness for the amended C9 claim: a store with one decodable row connects
successfully, and a dead connection surfaces its error. -/
theorem connect_characterization_witness :
    (∃ s, OptionStorage.connect (.ok ()) (.ok [sampleGoodRow]) = .ok s)
    ∧ OptionStorage.connect (.error "no db") (.ok []) = .err "no db" :=
  ⟨(connect_characterization.2.2.1 [sampleGoodRow]).mpr (by decide),
   connect_characterization.1 "no db" (.ok [])⟩
